import Mathlib

/-!
Shallow embedding of the ragie-cli importer (src/cmd/import.go and
src/pkg/client/client.go) together with theorems settling the claims
about its reconciliation and upload orchestration logic.

The remote document service is modelled as a functional server (a list of
documents) threaded through every call; transport failures are injected by
an oracle indexed by the per-kind call counter.  Every network request the
importer issues is recorded in a trace, and every console message in a log,
so claims about call counts, call ordering and warnings become statements
about these lists.
-/

namespace Ragie

/-- Metadata values (the subset of Go `interface\x7b\x7d` values the importer
stores: strings, integers, booleans). -/
inductive MVal where
  | s (v : String)
  | n (v : Nat)
  | b (v : Bool)
deriving DecidableEq, Repr

/-- Go `map[string]interface\x7b\x7d` metadata, as an association list. -/
abbrev Metadata := List (String × MVal)

/-- Go map assignment `m[k] = v`: replace the binding for `k` if present,
otherwise add it. -/
def metaSet : Metadata → String → MVal → Metadata
  | [], k, v => [(k, v)]
  | (k', v') :: rest, k, v =>
    if k' = k then (k, v) :: rest else (k', v') :: metaSet rest k v

/-- Go map lookup `m[k]`. -/
def metaGet : Metadata → String → Option MVal
  | [], _ => none
  | (k', v') :: rest, k => if k' = k then some v' else metaGet rest k

/-- client.Document (client.go): a remote document. -/
structure Document where
  id : String
  name : String
  metadata : Metadata
deriving DecidableEq, Repr

/-- client.Mode (client.go lines 20-24): the structured processing-mode
payload with `omitempty` JSON fields static, audio, video. -/
structure Mode where
  static : String
  audio : Bool
  video : String
deriving DecidableEq, Repr

/-- The dynamically-typed `mode any` argument of Client.CreateDocument:
nil, a bare string, or a pointer to a structured client.Mode. -/
inductive ModeArg where
  | null
  | str (s : String)
  | structured (m : Mode)
deriving DecidableEq, Repr

/-- One network request issued by the importer. -/
inductive NetCall where
  | list (externalId : String) (pageSize : Nat) (partition : String)
  | createRaw (partition name data : String) (metadata : Metadata)
  | createFile (partition name fileData fileName : String)
      (metadata : Metadata) (mode : ModeArg)
  | delete (id : String)
deriving DecidableEq, Repr

/-- Whether a network call mutates remote state by creating a document. -/
def NetCall.isCreate : NetCall → Bool
  | .createRaw _ _ _ _ => true
  | .createFile _ _ _ _ _ _ => true
  | _ => false

/-- Whether a network call deletes a document. -/
def NetCall.isDelete : NetCall → Bool
  | .delete _ => true
  | _ => false

/-- Whether a network call is a read-only list request. -/
def NetCall.isList : NetCall → Bool
  | .list _ _ _ => true
  | _ => false

/-- Transport-failure oracle: decides whether the k-th call of each kind
fails at the transport/HTTP level. -/
structure Oracle where
  listErr : Nat → Bool
  createErr : Nat → Bool
  deleteErr : Nat → Bool

/-- The oracle under which every call succeeds. -/
def okOracle : Oracle := ⟨fun _ => false, fun _ => false, fun _ => false⟩

/-- Execution state: the remote server's documents, a fresh-id counter,
per-kind call counters for the oracle, the network trace, the console log
and the number of pacing sleeps performed. -/
structure St where
  docs : List Document
  nextId : Nat
  listCnt : Nat
  createCnt : Nat
  deleteCnt : Nat
  trace : List NetCall
  log : List String
  sleeps : Nat
deriving Repr

/-- An initial state with the given remote documents and nothing recorded. -/
def St.init (docs : List Document) : St :=
  { docs := docs, nextId := 0, listCnt := 0, createCnt := 0, deleteCnt := 0,
    trace := [], log := [], sleeps := 0 }

/-- Server-side filter: documents whose `external_id` metadata equals `e`
(the filter JSON `\x7b"external_id": e\x7d` the client sends). -/
def filterByExternalId (docs : List Document) (e : String) : List Document :=
  docs.filter (fun d => metaGet d.metadata "external_id" = some (.s e))

/-- Number of remote documents whose `external_id` metadata equals `e`. -/
def countExt (docs : List Document) (e : String) : Nat :=
  (filterByExternalId docs e).length

/-- Client.ListDocuments (client.go lines 96-139) against the functional
server: returns matching documents truncated to the page size, or a
transport error when the oracle says so. -/
def listDocuments (o : Oracle) (s : St) (externalId : String) (pageSize : Nat)
    (partition : String) : Option (List Document) × St :=
  let s' := { s with listCnt := s.listCnt + 1,
                     trace := s.trace ++ [.list externalId pageSize partition] }
  if o.listErr s.listCnt then (none, s')
  else (some ((filterByExternalId s.docs externalId).take pageSize), s')

/-- Client.CreateDocumentRaw (client.go lines 53-94): on success the server
retains a fresh document carrying the supplied metadata. -/
def createDocumentRawApi (o : Oracle) (s : St) (partition name data : String)
    (metadata : Metadata) : Option Document × St :=
  let s' := { s with createCnt := s.createCnt + 1,
                     trace := s.trace ++ [.createRaw partition name data metadata] }
  if o.createErr s.createCnt then (none, s')
  else
    let doc : Document :=
      { id := "doc-" ++ toString s.nextId, name := name, metadata := metadata }
    (some doc, { s' with nextId := s.nextId + 1, docs := s.docs ++ [doc] })

/-- Client.CreateDocument (client.go lines 163-256), the multipart binary
upload, with the resolved mode payload recorded on the call. -/
def createDocumentFileApi (o : Oracle) (s : St) (partition name fileData fileName : String)
    (metadata : Metadata) (mode : ModeArg) : Option Document × St :=
  let s' := { s with createCnt := s.createCnt + 1,
                     trace := s.trace ++
                       [.createFile partition name fileData fileName metadata mode] }
  if o.createErr s.createCnt then (none, s')
  else
    let doc : Document :=
      { id := "doc-" ++ toString s.nextId, name := name, metadata := metadata }
    (some doc, { s' with nextId := s.nextId + 1, docs := s.docs ++ [doc] })

/-- Client.DeleteDocument (client.go lines 141-161): on success the server
drops the document with the given id. -/
def deleteDocumentApi (o : Oracle) (s : St) (id : String) : Bool × St :=
  let s' := { s with deleteCnt := s.deleteCnt + 1,
                     trace := s.trace ++ [.delete id] }
  if o.deleteErr s.deleteCnt then (false, s')
  else (true, { s' with docs := s'.docs.filter (fun d => d.id ≠ id) })

/-- ImportConfig (import.go lines 21-28).  The fields DryRun, Delay,
Partition, Mode, Force and Replace come from src/cmd/import.go; Static,
Audio and Video are the structured-mode flags of the repository revision
that defines ConstructMode, which is absent from src/ (only its unit tests
in src/cmd/import_test.go reference them) and is therefore modelled from
the spec (§3, §4.2).  Delay is Go float64, modelled exactly as a rational. -/
structure ImportConfig where
  DryRun : Bool := false
  Delay : ℚ := 0
  Partition : String := ""
  Mode : String := ""
  Force : Bool := false
  Replace : Bool := false
  Static : String := ""
  Audio : Bool := false
  Video : String := ""

/-- documentExists (import.go lines 118-130): page-size-1 existence check;
a transport error is treated as "does not exist" (fail-open). -/
def documentExists (o : Oracle) (s : St) (config : ImportConfig)
    (externalID : String) : Bool × St :=
  let r := listDocuments o s externalID 1 config.Partition
  match r.1 with
  | none => (false, r.2)
  | some docs => (!docs.isEmpty, r.2)

/-- The deletion loop of replaceExistingDocuments (import.go lines 145-155):
in dry-run each deletion is only announced; otherwise the first failing
delete aborts with an error.  Errors are modelled as `some message`. -/
def deleteDocsLoop (o : Oracle) (config : ImportConfig) :
    List Document → St → Option String × St
  | [], s => (none, s)
  | doc :: rest, s =>
    if config.DryRun then
      deleteDocsLoop o config rest
        { s with log := s.log ++ ["would delete existing document: " ++ doc.id] }
    else
      let r := deleteDocumentApi o s doc.id
      if r.1 then
        deleteDocsLoop o config rest
          { r.2 with log := r.2.log ++ ["deleted existing document: " ++ doc.id] }
      else
        (some ("failed to delete existing document " ++ doc.id), r.2)

/-- replaceExistingDocuments (import.go lines 133-158): list up to 100
documents with the external id, then delete each one. -/
def replaceExistingDocuments (o : Oracle) (s : St) (config : ImportConfig)
    (externalID : String) : Option String × St :=
  let r := listDocuments o s externalID 100 config.Partition
  match r.1 with
  | none => (some "failed to list existing documents", r.2)
  | some docs => deleteDocsLoop o config docs r.2

/-- createDocumentRaw (import.go lines 160-175): dry-run only announces;
otherwise `external_id` is injected into the metadata and the raw create
endpoint is called. -/
def createDocumentRaw (o : Oracle) (s : St) (externalID name data : String)
    (metadata : Metadata) (config : ImportConfig) : Option String × St :=
  if config.DryRun then
    (none, { s with log := s.log ++ ["would save document: " ++ name] })
  else
    let md := metaSet metadata "external_id" (.s externalID)
    let r := createDocumentRawApi o s config.Partition name data md
    match r.1 with
    | none => (some "create failed", r.2)
    | some doc => (none, { r.2 with log := r.2.log ++ ["saved: " ++ doc.id] })

/-- Modelled from the spec: ConstructMode (§4.2, recommended resolution),
the mode constructor collapsing the `Mode`, `Static`, `Audio` and `Video`
flags into the single payload of the binary upload.  The defining source
file is absent from src/; only its unit tests (TestConstructMode in
src/cmd/import_test.go) are present. -/
def ConstructMode (config : ImportConfig) : ModeArg :=
  if config.Static = "" && !config.Audio && config.Video = "" &&
      config.Mode ≠ "" && config.Mode ≠ "all" then
    .str config.Mode
  else
    let st := if config.Static ≠ "" then config.Static
              else if config.Mode ≠ "all" then config.Mode else ""
    let au := config.Audio || config.Mode = "all"
    let vid := if config.Video ≠ "" then config.Video
               else if config.Mode = "all" then "audio_video" else ""
    if st = "" && !au && vid = "" then .null
    else .structured { static := st, audio := au, video := vid }

/-- createDocument (import.go lines 177-193), the binary upload call site.
The mode payload it passes is ConstructMode of the configuration, as the
spec describes for the revision defining ConstructMode (the src/ snapshot
of this function predates that revision and still passes the bare
`config.Mode`). -/
def createDocument (o : Oracle) (s : St) (externalID name fileData fileName : String)
    (metadata : Metadata) (config : ImportConfig) : Option String × St :=
  if config.DryRun then
    (none, { s with log := s.log ++ ["would save document: " ++ name] })
  else
    let md := metaSet metadata "external_id" (.s externalID)
    let r := createDocumentFileApi o s config.Partition name fileData fileName md
      (ConstructMode config)
    match r.1 with
    | none => (some "create failed", r.2)
    | some doc => (none, { r.2 with log := r.2.log ++ ["saved: " ++ doc.id] })

/-- One parsed element of the YouTube JSON array: `none` models a missing
or non-string field (`item["videoId"].(string)` with `ok = false`). -/
structure YTItem where
  videoId : Option String := none
  title : Option String := none
  captions : List (Option String) := []

/-- The transcript body assembled by ImportYouTube (import.go lines
232-246): title, blank line, then each non-empty string caption on its
own line. -/
def ytContent (item : YTItem) : String :=
  let title := item.title.getD ""
  let base := if title ≠ "" then title ++ "\n\n" else ""
  item.captions.foldl (fun acc cap =>
    match cap with
    | some str => if str ≠ "" then acc ++ str ++ "\n" else acc
    | none => acc) base

/-- The body of the per-item loop of ImportYouTube (import.go lines
209-263). -/
def processYTItem (o : Oracle) (config : ImportConfig) (s : St) (item : YTItem) : St :=
  let videoID := item.videoId.getD ""
  if videoID = "" then
    { s with log := s.log ++ ["warning: skipping item with no videoId"] }
  else
    let ds := documentExists o s config videoID
    let docExists := ds.1
    let s1 := ds.2
    if docExists && !config.Force && !config.Replace then
      { s1 with log := s1.log ++
          ["warning: skipping video with existing document: " ++ videoID] }
    else
      let rr := if config.Replace && docExists then
                  replaceExistingDocuments o s1 config videoID
                else (none, s1)
      match rr.1 with
      | some msg =>
        { rr.2 with log := rr.2.log ++
            ["failed to replace existing documents for video " ++ videoID ++ ": " ++ msg] }
      | none =>
        let s2 := rr.2
        let content := ytContent item
        if content = "" then
          { s2 with log := s2.log ++
              ["warning: refusing to upload empty content: " ++ videoID] }
        else
          let title := item.title.getD ""
          let cr := createDocumentRaw o s2 videoID title content
            [("title", .s title)] config
          let s3 := match cr.1 with
            | some msg =>
              { cr.2 with log := cr.2.log ++
                  ["failed to import video " ++ videoID ++ ": " ++ msg] }
            | none => cr.2
          if 0 < config.Delay then { s3 with sleeps := s3.sleeps + 1 } else s3

/-- ImportYouTube (import.go lines 196-266), from the already-parsed item
array (file reading and JSON parsing happen before the loop and abort the
run as a whole when they fail). -/
def ImportYouTube (o : Oracle) (config : ImportConfig) (s : St)
    (items : List YTItem) : St :=
  items.foldl (processYTItem o config) s

/-- One `<post>` element of the WordPress export: `none` models a missing
child element (FindElement returning nil). -/
structure WPItem where
  url : Option String := none
  title : Option String := none
  description : Option String := none
  content : Option String := none

/-- The body assembled by ImportWordPress (import.go line 329):
strings.Join of title, description and content with the "\n\n" separator,
written out for the three-element list the source passes. -/
def wpData (item : WPItem) : String :=
  item.title.getD "" ++ "\n\n" ++ item.description.getD "" ++ "\n\n" ++
    item.content.getD ""

/-- The body of the per-post loop of ImportWordPress (import.go lines
282-339).  There is no empty-externalID guard and no empty-content guard
on this path. -/
def processWPItem (o : Oracle) (config : ImportConfig) (s : St) (item : WPItem) : St :=
  let url := item.url.getD ""
  let metadata := metaSet [("sourceType", .s "wordpress")] "url" (.s url)
  let ds := documentExists o s config url
  let docExists := ds.1
  let s1 := ds.2
  if docExists && !config.Force && !config.Replace then
    { s1 with log := s1.log ++
        ["warning: skipping post with existing document: " ++ url] }
  else
    let rr := if config.Replace && docExists then
                replaceExistingDocuments o s1 config url
              else (none, s1)
    match rr.1 with
    | some msg =>
      { rr.2 with log := rr.2.log ++
          ["failed to replace existing documents for post " ++ url ++ ": " ++ msg] }
    | none =>
      let s2 := rr.2
      let title := item.title.getD ""
      let metadata := metaSet metadata "title" (.s title)
      let data := wpData item
      let cr := createDocumentRaw o s2 url title data metadata config
      let s3 := match cr.1 with
        | some msg =>
          { cr.2 with log := cr.2.log ++ ["failed to import post: " ++ msg] }
        | none => cr.2
      if 0 < config.Delay then { s3 with sleeps := s3.sleeps + 1 } else s3

/-- ImportWordPress (import.go lines 269-342) over the parsed `<post>`
elements. -/
def ImportWordPress (o : Oracle) (config : ImportConfig) (s : St)
    (items : List WPItem) : St :=
  items.foldl (processWPItem o config) s

/-- One entry of a ZIP archive, with its raw bytes read as a Go string
(opening and reading are modelled as succeeding). -/
structure ZipEntry where
  name : String
  isDir : Bool := false
  content : String := ""
  uncompressedSize : Nat := 0
  compressedSize : Nat := 0
  modTime : String := ""

/-- Whether the first character list is a leading segment of the second
(helper for the Go string-function models below, which are written over
character lists so that they evaluate inside the kernel). -/
def leadsList : List Char → List Char → Bool
  | [], _ => true
  | _ :: _, [] => false
  | p :: ps, c :: cs => p == c && leadsList ps cs

/-- Go strings.HasSuffix. -/
def goHasSuffix (s suffix : String) : Bool :=
  decide (s.toList.drop (s.toList.length - suffix.toList.length) = suffix.toList)

/-- Go strings.Contains for the single-character needles the importer uses. -/
def goContains (s : String) (c : Char) : Bool :=
  s.toList.any (fun x => decide (x = c))

/-- Go strings.TrimSpace (strip leading and trailing whitespace). -/
def goTrimSpace (s : String) : String :=
  String.mk (((s.toList.dropWhile Char.isWhitespace).reverse.dropWhile
    Char.isWhitespace).reverse)

/-- Go strings.TrimSuffix. -/
def goTrimSuffix (s suffix : String) : String :=
  if goHasSuffix s suffix then
    String.mk (s.toList.take (s.toList.length - suffix.toList.length))
  else s

/-- The splitter behind the Go strings.Split/SplitN models: cut the
character list at every non-overlapping occurrence of the separator,
scanning left to right.  The fuel argument bounds the recursion and
exceeds the input length at every call site. -/
def goSplitAux (sep : List Char) : Nat → List Char → List Char → List (List Char)
  | 0, acc, rest => [acc.reverse ++ rest]
  | _ + 1, acc, [] => [acc.reverse]
  | n + 1, acc, c :: cs =>
    if leadsList sep (c :: cs) then
      acc.reverse :: goSplitAux sep n [] (List.drop sep.length (c :: cs))
    else
      goSplitAux sep n (c :: acc) cs

/-- Go strings.Split with a non-empty separator. -/
def goSplitOn (s sep : String) : List String :=
  (goSplitAux sep.toList (s.toList.length + 1) [] s.toList).map String.mk

/-- strings.SplitN(s, sep, 2). -/
def splitN2 (s sep : String) : List String :=
  match goSplitOn s sep with
  | [] => []
  | a :: rest =>
    match rest with
    | [] => [a]
    | _ => [a, String.intercalate sep rest]

/-- strings.SplitN(s, sep, 3). -/
def splitN3 (s sep : String) : List String :=
  match goSplitOn s sep with
  | [] => []
  | a :: rest =>
    match rest with
    | [] => [a]
    | b :: rest2 =>
      match rest2 with
      | [] => [a, b]
      | _ => [a, b, String.intercalate sep rest2]

/-- strings.Trim(s, "\"") as used on frontmatter values: strip leading and
trailing double quotes. -/
def trimQuotes (s : String) : String :=
  let chars := (s.toList.dropWhile (fun c => c = '"')).reverse
  String.mk ((chars.dropWhile (fun c => c = '"')).reverse)

/-- The frontmatter parse of ImportReadmeIO (import.go lines 388-395):
every line containing a colon contributes a key/value pair. -/
def parseFrontmatterInto (metadata : Metadata) (fm : String) : Metadata :=
  (goSplitOn fm "\n").foldl (fun md line =>
    if goContains line ':' then
      match splitN2 line ":" with
      | [k, v] => metaSet md (goTrimSpace k) (.s (trimQuotes (goTrimSpace v)))
      | _ => md
    else md) metadata

/-- filepath.Base for slash paths: the last path element. -/
def baseName (p : String) : String :=
  match (goSplitOn p "/").getLast? with
  | some v => v
  | none => p

/-- filepath.Ext for slash paths: the suffix of the last element starting
at its final dot, empty when there is none. -/
def fileExt (p : String) : String :=
  let b := (baseName p).toList
  let afterDot := b.reverse.takeWhile (fun c => c ≠ '.')
  if afterDot.length = b.length then ""
  else String.mk ('.' :: afterDot.reverse)

/-- The slug lookup `metadata["slug"].(string)` (import.go line 398). -/
def slugOf (metadata : Metadata) : String :=
  match metaGet metadata "slug" with
  | some (.s v) => v
  | _ => ""

/-- The metadata accumulated before the slug lookup (import.go lines
378-396): the sourceType marker plus, when the file has a frontmatter
block, its parsed key/value lines. -/
def readmeParsedMetadata (contentStr : String) : Metadata :=
  let metadata : Metadata := [("sourceType", .s "readmeio")]
  let parts := splitN3 contentStr "---"
  if 3 ≤ parts.length then parseFrontmatterInto metadata ((parts.get? 1).getD "")
  else metadata

/-- The document body after frontmatter stripping (import.go lines
383-386): the remainder past the second `---` when a frontmatter block
exists, the whole file otherwise. -/
def readmeBody (contentStr : String) : String :=
  let parts := splitN3 contentStr "---"
  if 3 ≤ parts.length then (parts.get? 2).getD "" else contentStr

/-- The body of the per-file loop of ImportReadmeIO (import.go lines
354-435).  Note the whitespace-only guard on the raw file contents runs
before frontmatter parsing and before any network call. -/
def processReadmeEntry (o : Oracle) (config : ImportConfig) (s : St)
    (entry : ZipEntry) : St :=
  if !goHasSuffix entry.name ".md" then s
  else
    if goTrimSpace entry.content = "" then
      { s with log := s.log ++
          ["warning: refusing to upload empty content: " ++ entry.name] }
    else
      let metadata := readmeParsedMetadata entry.content
      let contentStr := readmeBody entry.content
      let docID := slugOf metadata
      if docID = "" then
        { s with log := s.log ++
            ["warning: skipping document without slug: " ++ entry.name] }
      else
        let metadata := metaSet metadata "readmeId" (.s docID)
        let ds := documentExists o s config docID
        let docExists := ds.1
        let s1 := ds.2
        if docExists && !config.Force && !config.Replace then
          { s1 with log := s1.log ++
              ["warning: skipping document with existing id: " ++ docID] }
        else
          let rr := if config.Replace && docExists then
                      replaceExistingDocuments o s1 config docID
                    else (none, s1)
          match rr.1 with
          | some msg =>
            { rr.2 with log := rr.2.log ++
                ["failed to replace existing documents for readme document " ++
                  docID ++ ": " ++ msg] }
          | none =>
            let s2 := rr.2
            let title0 := match metaGet metadata "title" with
              | some (.s v) => v
              | _ => ""
            let title := if title0 = "" then
                let b := baseName entry.name
                goTrimSuffix b ".md"
              else title0
            let cr := createDocumentRaw o s2 docID title contentStr metadata config
            let s3 := match cr.1 with
              | some msg =>
                { cr.2 with log := cr.2.log ++
                    ["failed to import readme document " ++ entry.name ++ ": " ++ msg] }
              | none => cr.2
            if 0 < config.Delay then { s3 with sleeps := s3.sleeps + 1 } else s3

/-- ImportReadmeIO (import.go lines 345-438) over the archive entries. -/
def ImportReadmeIO (o : Oracle) (config : ImportConfig) (s : St)
    (entries : List ZipEntry) : St :=
  entries.foldl (processReadmeEntry o config) s

/-- One filesystem file reached by ImportFiles, with its contents read as a
Go string (os.Stat and os.ReadFile are modelled as succeeding). -/
structure FileEntry where
  path : String
  relPath : String
  content : String := ""
  size : Nat := 0
  modTime : String := ""

/-- importFile (import.go lines 481-532): the per-file handler shared by the
single-file and directory-walk cases of ImportFiles.  On this platform the
path separator is already a slash, so filepath.ToSlash is the identity. -/
def importFile (o : Oracle) (config : ImportConfig) (s : St) (f : FileEntry) : St :=
  let externalID := f.relPath
  let ds := documentExists o s config externalID
  let docExists := ds.1
  let s1 := ds.2
  if docExists && !config.Force && !config.Replace then
    { s1 with log := s1.log ++
        ["warning: skipping file with existing document: " ++ externalID] }
  else
    let rr := if config.Replace && docExists then
                replaceExistingDocuments o s1 config externalID
              else (none, s1)
    match rr.1 with
    | some msg =>
      { rr.2 with log := rr.2.log ++
          ["failed to replace existing documents for file " ++ externalID ++ ": " ++ msg] }
    | none =>
      let s2 := rr.2
      if (goTrimSpace f.content).length = 0 then
        { s2 with log := s2.log ++ ["warning: skipping empty file: " ++ f.path] }
      else
        let metadata : Metadata :=
          [("source_type", .s "files"), ("path", .s externalID),
           ("extension", .s (fileExt f.path)), ("size", .n f.size),
           ("mod_time", .s f.modTime)]
        let cr := createDocument o s2 externalID (baseName f.path) f.content
          (baseName f.path) metadata config
        let s3 := match cr.1 with
          | some msg =>
            { cr.2 with log := cr.2.log ++
                ["failed to import file " ++ f.path ++ ": " ++ msg] }
          | none => cr.2
        if 0 < config.Delay then { s3 with sleeps := s3.sleeps + 1 } else s3

/-- ImportFiles (import.go lines 441-478) over the files found by the walk,
in walk order. -/
def ImportFiles (o : Oracle) (config : ImportConfig) (s : St)
    (files : List FileEntry) : St :=
  files.foldl (importFile o config) s

/-- The body of the per-entry loop of ImportZip (import.go lines 546-612). -/
def processZipEntry (o : Oracle) (config : ImportConfig) (zipFile : String)
    (s : St) (f : ZipEntry) : St :=
  if f.isDir then s
  else
    let externalID := f.name
    let ds := documentExists o s config externalID
    let docExists := ds.1
    let s1 := ds.2
    if docExists && !config.Force && !config.Replace then
      { s1 with log := s1.log ++
          ["warning: skipping file with existing document: " ++ externalID] }
    else
      let rr := if config.Replace && docExists then
                  replaceExistingDocuments o s1 config externalID
                else (none, s1)
      match rr.1 with
      | some msg =>
        { rr.2 with log := rr.2.log ++
            ["failed to replace existing documents for file " ++ externalID ++ ": " ++ msg] }
      | none =>
        let s2 := rr.2
        if (goTrimSpace f.content).length = 0 then
          { s2 with log := s2.log ++ ["warning: skipping empty file: " ++ f.name] }
        else
          let metadata : Metadata :=
            [("source_type", .s "zip"), ("path", .s externalID),
             ("extension", .s (fileExt f.name)), ("size", .n f.uncompressedSize),
             ("mod_time", .s f.modTime), ("compressed_size", .n f.compressedSize),
             ("zip_source", .s (baseName zipFile))]
          let cr := createDocument o s2 externalID (baseName f.name) f.content
            f.name metadata config
          let s3 := match cr.1 with
            | some msg =>
              { cr.2 with log := cr.2.log ++
                  ["failed to import file " ++ f.name ++ ": " ++ msg] }
            | none => cr.2
          if 0 < config.Delay then { s3 with sleeps := s3.sleeps + 1 } else s3

/-- ImportZip (import.go lines 535-615) over the archive entries. -/
def ImportZip (o : Oracle) (config : ImportConfig) (zipFile : String) (s : St)
    (entries : List ZipEntry) : St :=
  entries.foldl (processZipEntry o config zipFile) s

/-- The top-level JSON keys of the Client.CreateDocumentRaw request body
(client.go lines 54-62): name, data, metadata, and partition only when it
is non-empty.  No mode key exists on the inline-text path. -/
def rawPayloadKeys (partition : String) : List String :=
  ["name", "data", "metadata"] ++ (if partition ≠ "" then ["partition"] else [])

/-- JSON encoding of client.Mode with its `omitempty` field tags
(client.go lines 20-24): empty strings and a false audio flag are omitted. -/
def modeJson (m : Mode) : String :=
  let fields :=
    (if m.static ≠ "" then ["\"static\":\"" ++ m.static ++ "\""] else []) ++
    (if m.audio then ["\"audio\":true"] else []) ++
    (if m.video ≠ "" then ["\"video\":\"" ++ m.video ++ "\""] else [])
  "\x7b" ++ String.intercalate "," fields ++ "\x7d"

/-- The value of the multipart `mode` form field written by
Client.CreateDocument (client.go lines 191-209): absent for a nil mode, the
bare string for a string mode, the JSON encoding for a structured mode. -/
def modeFieldValue : ModeArg → Option String
  | .null => none
  | .str v => some v
  | .structured m => some (modeJson m)

/-- Indicator used for the idempotence analysis: 1 when the YouTube item
derives external id `e` and assembles non-empty content (and so would be
eligible to create a document for `e`), 0 otherwise. -/
def ytInd (item : YTItem) (e : String) : Nat :=
  if item.videoId.getD "" = e ∧ ytContent item ≠ "" then 1 else 0

/-- Indicator over a whole item list: 1 when some item is eligible for `e`. -/
def ytIndList (items : List YTItem) (e : String) : Nat :=
  if ∃ it ∈ items, it.videoId.getD "" = e ∧ ytContent it ≠ "" then 1 else 0


lemma metaGet_metaSet (md : Metadata) (k : String) (v : MVal) :
    metaGet (metaSet md k v) k = some v := by
  induction md with
  | nil => simp [metaSet, metaGet]
  | cons hd tl ih =>
    by_cases h : hd.1 = k
    · simp [metaSet, metaGet, h]
    · simp [metaSet, metaGet, h, ih]

lemma countExt_nil (e : String) : countExt [] e = 0 := rfl

lemma countExt_append (docs docs' : List Document) (e : String) :
    countExt (docs ++ docs') e = countExt docs e + countExt docs' e := by
  simp [countExt, filterByExternalId, List.filter_append]

lemma countExt_singleton (d : Document) (e : String) :
    countExt [d] e = if metaGet d.metadata "external_id" = some (.s e) then 1 else 0 := by
  simp only [countExt, filterByExternalId]
  by_cases h : metaGet d.metadata "external_id" = some (.s e) <;> simp [h]

lemma take_one_isEmpty {α : Type _} (l : List α) : (l.take 1).isEmpty = l.isEmpty := by
  cases l <;> rfl

lemma listDocuments_snd (o : Oracle) (s : St) (e : String) (ps : Nat) (p : String) :
    (listDocuments o s e ps p).2 =
      { s with listCnt := s.listCnt + 1, trace := s.trace ++ [.list e ps p] } := by
  simp only [listDocuments]
  split <;> rfl

lemma documentExists_snd (o : Oracle) (s : St) (cfg : ImportConfig) (e : String) :
    (documentExists o s cfg e).2 =
      { s with listCnt := s.listCnt + 1,
               trace := s.trace ++ [.list e 1 cfg.Partition] } := by
  simp only [documentExists]
  cases h : (listDocuments o s e 1 cfg.Partition).1 <;>
    simp [h, listDocuments_snd]

lemma documentExists_fst_err (o : Oracle) (s : St) (cfg : ImportConfig) (e : String)
    (h : o.listErr s.listCnt = true) :
    (documentExists o s cfg e).1 = false := by
  simp [documentExists, listDocuments, h]

lemma documentExists_fst_ok (o : Oracle) (s : St) (cfg : ImportConfig) (e : String)
    (h : o.listErr s.listCnt = false) :
    (documentExists o s cfg e).1 = !(filterByExternalId s.docs e).isEmpty := by
  simp [documentExists, listDocuments, h, take_one_isEmpty]

lemma documentExists_fst_iff (o : Oracle) (s : St) (cfg : ImportConfig) (e : String)
    (h : o.listErr s.listCnt = false) :
    (documentExists o s cfg e).1 = true ↔ 0 < countExt s.docs e := by
  rw [documentExists_fst_ok o s cfg e h]
  cases hf : filterByExternalId s.docs e <;> simp [countExt, hf]

lemma deleteDocsLoop_frame (o : Oracle) (cfg : ImportConfig) (docs : List Document) (s : St) :
    ∃ Δ, (deleteDocsLoop o cfg docs s).2.trace = s.trace ++ Δ ∧
      (∀ c ∈ Δ, c.isDelete = true) ∧
      (deleteDocsLoop o cfg docs s).2.createCnt = s.createCnt ∧
      (deleteDocsLoop o cfg docs s).2.listCnt = s.listCnt ∧
      (deleteDocsLoop o cfg docs s).2.sleeps = s.sleeps ∧
      ∃ Λ, (deleteDocsLoop o cfg docs s).2.log = s.log ++ Λ := by
  induction docs generalizing s with
  | nil => exact ⟨[], by simp [deleteDocsLoop], by simp, by simp [deleteDocsLoop],
      by simp [deleteDocsLoop], by simp [deleteDocsLoop], [], by simp [deleteDocsLoop]⟩
  | cons d rest ih =>
    by_cases hdry : cfg.DryRun
    · obtain ⟨Δ, ht, hd, hc, hl, hs, Λ, hlog⟩ :=
        ih { s with log := s.log ++ ["would delete existing document: " ++ d.id] }
      exact ⟨Δ, by simpa [deleteDocsLoop, hdry] using ht, hd,
        by simpa [deleteDocsLoop, hdry] using hc,
        by simpa [deleteDocsLoop, hdry] using hl,
        by simpa [deleteDocsLoop, hdry] using hs,
        ("would delete existing document: " ++ d.id) :: Λ,
        by simpa [deleteDocsLoop, hdry] using hlog⟩
    · by_cases herr : o.deleteErr s.deleteCnt
      · refine ⟨[.delete d.id], ?_, by simp [NetCall.isDelete], ?_, ?_, ?_, [], ?_⟩ <;>
          simp [deleteDocsLoop, hdry, deleteDocumentApi, herr]
      · obtain ⟨Δ, ht, hd, hc, hl, hs, Λ, hlog⟩ :=
          ih { s with deleteCnt := s.deleteCnt + 1,
                      trace := s.trace ++ [.delete d.id],
                      docs := s.docs.filter (fun x => x.id ≠ d.id),
                      log := s.log ++ ["deleted existing document: " ++ d.id] }
        refine ⟨.delete d.id :: Δ, ?_, ?_, ?_, ?_, ?_,
          ("deleted existing document: " ++ d.id) :: Λ, ?_⟩
        · simpa [deleteDocsLoop, hdry, deleteDocumentApi, herr] using ht
        · intro c hc'
          rcases List.mem_cons.mp hc' with h | h
          · simp [h, NetCall.isDelete]
          · exact hd c h
        · simpa [deleteDocsLoop, hdry, deleteDocumentApi, herr] using hc
        · simpa [deleteDocsLoop, hdry, deleteDocumentApi, herr] using hl
        · simpa [deleteDocsLoop, hdry, deleteDocumentApi, herr] using hs
        · simpa [deleteDocsLoop, hdry, deleteDocumentApi, herr] using hlog

lemma deleteDocsLoop_dry (o : Oracle) (cfg : ImportConfig) (docs : List Document) (s : St)
    (hdry : cfg.DryRun = true) :
    deleteDocsLoop o cfg docs s =
      (none, { s with
                 log := s.log ++
                   docs.map (fun d => "would delete existing document: " ++ d.id) }) := by
  induction docs generalizing s with
  | nil => simp [deleteDocsLoop]
  | cons d rest ih => simp [deleteDocsLoop, hdry, ih]

lemma deleteDocsLoop_ok (o : Oracle) (cfg : ImportConfig) (docs : List Document) (s : St)
    (hdry : cfg.DryRun = false) (herr : ∀ n, o.deleteErr n = false) :
    (deleteDocsLoop o cfg docs s).1 = none ∧
    (deleteDocsLoop o cfg docs s).2.trace =
      s.trace ++ docs.map (fun d => NetCall.delete d.id) := by
  induction docs generalizing s with
  | nil => simp [deleteDocsLoop]
  | cons d rest ih =>
    have h2 := ih { s with deleteCnt := s.deleteCnt + 1,
                           trace := s.trace ++ [.delete d.id],
                           docs := s.docs.filter (fun x => x.id ≠ d.id),
                           log := s.log ++ ["deleted existing document: " ++ d.id] }
    simp only [deleteDocsLoop, hdry, deleteDocumentApi, herr] at *
    simpa using h2

lemma replaceExistingDocuments_frame (o : Oracle) (s : St) (cfg : ImportConfig) (e : String) :
    ∃ Δ, (replaceExistingDocuments o s cfg e).2.trace =
        s.trace ++ .list e 100 cfg.Partition :: Δ ∧
      (∀ c ∈ Δ, c.isDelete = true) ∧
      (replaceExistingDocuments o s cfg e).2.createCnt = s.createCnt ∧
      (replaceExistingDocuments o s cfg e).2.sleeps = s.sleeps ∧
      ∃ Λ, (replaceExistingDocuments o s cfg e).2.log = s.log ++ Λ := by
  simp only [replaceExistingDocuments]
  cases h : (listDocuments o s e 100 cfg.Partition).1 with
  | none =>
    refine ⟨[], ?_, by simp, ?_, ?_, [], ?_⟩ <;> simp [h, listDocuments_snd]
  | some docs =>
    obtain ⟨Δ, ht, hd, hc, _, hs, Λ, hlog⟩ :=
      deleteDocsLoop_frame o cfg docs
        { s with listCnt := s.listCnt + 1,
                 trace := s.trace ++ [.list e 100 cfg.Partition] }
    exact ⟨Δ, by simpa [h, listDocuments_snd] using ht, hd,
      by simpa [h, listDocuments_snd] using hc,
      by simpa [h, listDocuments_snd] using hs,
      Λ, by simpa [h, listDocuments_snd] using hlog⟩

lemma createDocumentRaw_dry (o : Oracle) (s : St) (eid nm data : String) (md : Metadata)
    (cfg : ImportConfig) (hdry : cfg.DryRun = true) :
    createDocumentRaw o s eid nm data md cfg =
      (none, { s with log := s.log ++ ["would save document: " ++ nm] }) := by
  simp [createDocumentRaw, hdry]

lemma createDocumentRaw_ok (o : Oracle) (s : St) (eid nm data : String) (md : Metadata)
    (cfg : ImportConfig) (hdry : cfg.DryRun = false) (hc : o.createErr s.createCnt = false) :
    createDocumentRaw o s eid nm data md cfg =
      (none,
        { s with createCnt := s.createCnt + 1, nextId := s.nextId + 1,
                 docs := s.docs ++
                   [⟨"doc-" ++ toString s.nextId, nm, metaSet md "external_id" (.s eid)⟩],
                 trace := s.trace ++ [.createRaw cfg.Partition nm data
                   (metaSet md "external_id" (.s eid))],
                 log := s.log ++ ["saved: " ++ ("doc-" ++ toString s.nextId)] }) := by
  simp [createDocumentRaw, hdry, createDocumentRawApi, hc]

lemma createDocumentRaw_createCnt (o : Oracle) (s : St) (eid nm data : String)
    (md : Metadata) (cfg : ImportConfig) (hdry : cfg.DryRun = false) :
    (createDocumentRaw o s eid nm data md cfg).2.createCnt = s.createCnt + 1 := by
  by_cases hc : o.createErr s.createCnt <;>
    simp [createDocumentRaw, hdry, createDocumentRawApi, hc]

lemma createDocumentRaw_frame (o : Oracle) (s : St) (eid nm data : String)
    (md : Metadata) (cfg : ImportConfig) :
    ∃ Δ, (createDocumentRaw o s eid nm data md cfg).2.trace = s.trace ++ Δ ∧
      (∀ c ∈ Δ, c.isDelete = false ∧ c.isList = false) ∧
      (createDocumentRaw o s eid nm data md cfg).2.sleeps = s.sleeps ∧
      ∃ Λ, (createDocumentRaw o s eid nm data md cfg).2.log = s.log ++ Λ := by
  by_cases hdry : cfg.DryRun
  · exact ⟨[], by simp [createDocumentRaw, hdry], by simp,
      by simp [createDocumentRaw, hdry], ["would save document: " ++ nm],
      by simp [createDocumentRaw, hdry]⟩
  · by_cases hc : o.createErr s.createCnt
    · refine ⟨[.createRaw cfg.Partition nm data (metaSet md "external_id" (.s eid))],
        ?_, ?_, ?_, [], ?_⟩ <;>
        simp [createDocumentRaw, hdry, createDocumentRawApi, hc,
          NetCall.isDelete, NetCall.isList]
    · refine ⟨[.createRaw cfg.Partition nm data (metaSet md "external_id" (.s eid))],
        ?_, ?_, ?_, ["saved: " ++ ("doc-" ++ toString s.nextId)], ?_⟩ <;>
        simp [createDocumentRaw, hdry, createDocumentRawApi, hc,
          NetCall.isDelete, NetCall.isList]

lemma processYTItem_emptyId (o : Oracle) (cfg : ImportConfig) (s : St) (item : YTItem)
    (h : item.videoId.getD "" = "") :
    processYTItem o cfg s item =
      { s with log := s.log ++ ["warning: skipping item with no videoId"] } := by
  simp [processYTItem, h]

lemma processYTItem_skipExisting (o : Oracle) (cfg : ImportConfig) (s : St) (item : YTItem)
    (v : String) (hv : item.videoId.getD "" = v) (hvne : v ≠ "")
    (hex : (documentExists o s cfg v).1 = true)
    (hforce : cfg.Force = false) (hrep : cfg.Replace = false) :
    processYTItem o cfg s item =
      { (documentExists o s cfg v).2 with
          log := (documentExists o s cfg v).2.log ++
            ["warning: skipping video with existing document: " ++ v] } := by
  simp [processYTItem, hv, hvne, hex, hforce, hrep]

lemma processYTItem_replaceFail (o : Oracle) (cfg : ImportConfig) (s : St) (item : YTItem)
    (v msg : String) (hv : item.videoId.getD "" = v) (hvne : v ≠ "")
    (hrep : cfg.Replace = true)
    (hex : (documentExists o s cfg v).1 = true)
    (hfail : (replaceExistingDocuments o (documentExists o s cfg v).2 cfg v).1 = some msg) :
    processYTItem o cfg s item =
      { (replaceExistingDocuments o (documentExists o s cfg v).2 cfg v).2 with
          log := (replaceExistingDocuments o (documentExists o s cfg v).2 cfg v).2.log ++
            ["failed to replace existing documents for video " ++ v ++ ": " ++ msg] } := by
  simp [processYTItem, hv, hvne, hex, hrep, hfail]

lemma processYTItem_noRep_emptyContent (o : Oracle) (cfg : ImportConfig) (s : St)
    (item : YTItem) (v : String) (hv : item.videoId.getD "" = v) (hvne : v ≠ "")
    (hskip : ((documentExists o s cfg v).1 && !cfg.Force && !cfg.Replace) = false)
    (hnorep : (cfg.Replace && (documentExists o s cfg v).1) = false)
    (hcontent : ytContent item = "") :
    processYTItem o cfg s item =
      { (documentExists o s cfg v).2 with
          log := (documentExists o s cfg v).2.log ++
            ["warning: refusing to upload empty content: " ++ v] } := by
  simp [processYTItem, hv, hvne, hskip, hnorep, hcontent]

lemma processYTItem_noRep_upload (o : Oracle) (cfg : ImportConfig) (s : St)
    (item : YTItem) (v : String) (hv : item.videoId.getD "" = v) (hvne : v ≠ "")
    (hskip : ((documentExists o s cfg v).1 && !cfg.Force && !cfg.Replace) = false)
    (hnorep : (cfg.Replace && (documentExists o s cfg v).1) = false)
    (hcontent : ytContent item ≠ "") :
    (processYTItem o cfg s item).docs =
      (createDocumentRaw o (documentExists o s cfg v).2 v (item.title.getD "")
        (ytContent item) [("title", .s (item.title.getD ""))] cfg).2.docs ∧
    (processYTItem o cfg s item).trace =
      (createDocumentRaw o (documentExists o s cfg v).2 v (item.title.getD "")
        (ytContent item) [("title", .s (item.title.getD ""))] cfg).2.trace ∧
    (processYTItem o cfg s item).createCnt =
      (createDocumentRaw o (documentExists o s cfg v).2 v (item.title.getD "")
        (ytContent item) [("title", .s (item.title.getD ""))] cfg).2.createCnt ∧
    (processYTItem o cfg s item).sleeps =
      (if 0 < cfg.Delay then
        (createDocumentRaw o (documentExists o s cfg v).2 v (item.title.getD "")
          (ytContent item) [("title", .s (item.title.getD ""))] cfg).2.sleeps + 1
       else
        (createDocumentRaw o (documentExists o s cfg v).2 v (item.title.getD "")
          (ytContent item) [("title", .s (item.title.getD ""))] cfg).2.sleeps) ∧
    ∃ Λ, (processYTItem o cfg s item).log =
      (createDocumentRaw o (documentExists o s cfg v).2 v (item.title.getD "")
        (ytContent item) [("title", .s (item.title.getD ""))] cfg).2.log ++ Λ := by
  simp only [processYTItem, hv, hvne, hskip, hnorep]
  cases hm : (createDocumentRaw o (documentExists o s cfg v).2 v (item.title.getD "")
      (ytContent item) [("title", .s (item.title.getD ""))] cfg).1 with
  | none =>
    by_cases hd : 0 < cfg.Delay <;>
      simp [hv, hvne, hskip, hnorep, hcontent, hm, hd]
  | some msg =>
    by_cases hd : 0 < cfg.Delay <;>
      refine ⟨?_, ?_, ?_, ?_, ["failed to import video " ++ v ++ ": " ++ msg], ?_⟩ <;>
      simp [hv, hvne, hskip, hnorep, hcontent, hm, hd]

lemma replaceExistingDocuments_ok (o : Oracle) (s : St) (cfg : ImportConfig) (e : String)
    (hdry : cfg.DryRun = false) (hl : o.listErr s.listCnt = false)
    (hd : ∀ n, o.deleteErr n = false) :
    (replaceExistingDocuments o s cfg e).1 = none ∧
    (replaceExistingDocuments o s cfg e).2.trace =
      s.trace ++ .list e 100 cfg.Partition ::
        ((filterByExternalId s.docs e).take 100).map (fun d => NetCall.delete d.id) := by
  have hloop := deleteDocsLoop_ok o cfg ((filterByExternalId s.docs e).take 100)
    { s with listCnt := s.listCnt + 1,
             trace := s.trace ++ [.list e 100 cfg.Partition] } hdry hd
  simp only [replaceExistingDocuments, listDocuments, hl] at *
  simpa using hloop

lemma processYTItem_repOk_emptyContent (o : Oracle) (cfg : ImportConfig) (s : St)
    (item : YTItem) (v : String) (hv : item.videoId.getD "" = v) (hvne : v ≠ "")
    (hrep : cfg.Replace = true)
    (hex : (documentExists o s cfg v).1 = true)
    (hok : (replaceExistingDocuments o (documentExists o s cfg v).2 cfg v).1 = none)
    (hcontent : ytContent item = "") :
    processYTItem o cfg s item =
      { (replaceExistingDocuments o (documentExists o s cfg v).2 cfg v).2 with
          log := (replaceExistingDocuments o (documentExists o s cfg v).2 cfg v).2.log ++
            ["warning: refusing to upload empty content: " ++ v] } := by
  simp [processYTItem, hv, hvne, hex, hrep, hok, hcontent]

lemma processYTItem_repOk_upload (o : Oracle) (cfg : ImportConfig) (s : St)
    (item : YTItem) (v : String) (hv : item.videoId.getD "" = v) (hvne : v ≠ "")
    (hrep : cfg.Replace = true)
    (hex : (documentExists o s cfg v).1 = true)
    (hok : (replaceExistingDocuments o (documentExists o s cfg v).2 cfg v).1 = none)
    (hcontent : ytContent item ≠ "") :
    (processYTItem o cfg s item).docs =
      (createDocumentRaw o (replaceExistingDocuments o (documentExists o s cfg v).2 cfg v).2
        v (item.title.getD "") (ytContent item)
        [("title", .s (item.title.getD ""))] cfg).2.docs ∧
    (processYTItem o cfg s item).trace =
      (createDocumentRaw o (replaceExistingDocuments o (documentExists o s cfg v).2 cfg v).2
        v (item.title.getD "") (ytContent item)
        [("title", .s (item.title.getD ""))] cfg).2.trace ∧
    (processYTItem o cfg s item).createCnt =
      (createDocumentRaw o (replaceExistingDocuments o (documentExists o s cfg v).2 cfg v).2
        v (item.title.getD "") (ytContent item)
        [("title", .s (item.title.getD ""))] cfg).2.createCnt ∧
    (processYTItem o cfg s item).sleeps =
      (if 0 < cfg.Delay then
        (createDocumentRaw o (replaceExistingDocuments o (documentExists o s cfg v).2 cfg v).2
          v (item.title.getD "") (ytContent item)
          [("title", .s (item.title.getD ""))] cfg).2.sleeps + 1
       else
        (createDocumentRaw o (replaceExistingDocuments o (documentExists o s cfg v).2 cfg v).2
          v (item.title.getD "") (ytContent item)
          [("title", .s (item.title.getD ""))] cfg).2.sleeps) ∧
    ∃ Λ, (processYTItem o cfg s item).log =
      (createDocumentRaw o (replaceExistingDocuments o (documentExists o s cfg v).2 cfg v).2
        v (item.title.getD "") (ytContent item)
        [("title", .s (item.title.getD ""))] cfg).2.log ++ Λ := by
  simp only [processYTItem, hv, hvne, hex, hrep]
  cases hm : (createDocumentRaw o
      (replaceExistingDocuments o (documentExists o s cfg v).2 cfg v).2
      v (item.title.getD "") (ytContent item)
      [("title", .s (item.title.getD ""))] cfg).1 with
  | none =>
    by_cases hd : 0 < cfg.Delay <;>
      simp [hv, hvne, hex, hrep, hok, hcontent, hm, hd]
  | some msg =>
    by_cases hd : 0 < cfg.Delay <;>
      refine ⟨?_, ?_, ?_, ?_, ["failed to import video " ++ v ++ ": " ++ msg], ?_⟩ <;>
      simp [hv, hvne, hex, hrep, hok, hcontent, hm, hd]

/-- C1: for an item processed with replace=true whose existence check found
a matching document (and, as the dry-run claim C6 separately governs that
mode, with dryRun=false): the importer lists up to 100 documents with the
item's external id and issues one delete call per listed document before
any create call; if the replace step fails, no create call occurs for the
item, the failure is logged, and the run continues with the next item. -/
theorem claim_C1 (cfg : ImportConfig) (s : St) (item : YTItem) (v : String)
    (hv : item.videoId.getD "" = v) (hvne : v ≠ "")
    (hrep : cfg.Replace = true) (hdry : cfg.DryRun = false) :
    (∀ o : Oracle, (∀ n, o.listErr n = false) → (∀ n, o.deleteErr n = false) →
      (documentExists o s cfg v).1 = true →
      ∃ rest, (processYTItem o cfg s item).trace =
          s.trace ++ .list v 1 cfg.Partition :: .list v 100 cfg.Partition ::
            (((filterByExternalId s.docs v).take 100).map
              (fun d => NetCall.delete d.id) ++ rest) ∧
        ∀ c ∈ rest, c.isDelete = false ∧ c.isList = false) ∧
    (∀ o : Oracle, ∀ msg : String,
      (documentExists o s cfg v).1 = true →
      (replaceExistingDocuments o (documentExists o s cfg v).2 cfg v).1 = some msg →
      (processYTItem o cfg s item).createCnt = s.createCnt ∧
      ("failed to replace existing documents for video " ++ v ++ ": " ++ msg) ∈
        (processYTItem o cfg s item).log) ∧
    (∀ o : Oracle, ∀ rest' : List YTItem,
      ImportYouTube o cfg s (item :: rest') =
        ImportYouTube o cfg (processYTItem o cfg s item) rest') := by
  refine ⟨?_, ?_, ?_⟩
  · intro o hlist hdel hex
    have hs2 := documentExists_snd o s cfg v
    have hrep2 := replaceExistingDocuments_ok o (documentExists o s cfg v).2 cfg v hdry
      (hlist _) hdel
    by_cases hcontent : ytContent item = ""
    · rw [processYTItem_repOk_emptyContent o cfg s item v hv hvne hrep hex hrep2.1 hcontent]
      refine ⟨[], ?_, by simp⟩
      rw [hrep2.2, hs2]
      simp
    · obtain ⟨_, htr, _, _, _, _⟩ :=
        processYTItem_repOk_upload o cfg s item v hv hvne hrep hex hrep2.1 hcontent
      obtain ⟨Δ, hΔtr, hΔprop, _, _, _⟩ :=
        createDocumentRaw_frame o
          (replaceExistingDocuments o (documentExists o s cfg v).2 cfg v).2
          v (item.title.getD "") (ytContent item)
          [("title", .s (item.title.getD ""))] cfg
      refine ⟨Δ, ?_, hΔprop⟩
      rw [htr, hΔtr, hrep2.2, hs2]
      simp
  · intro o msg hex hfail
    rw [processYTItem_replaceFail o cfg s item v msg hv hvne hrep hex hfail]
    obtain ⟨_, _, _, hcc, _, _, _⟩ :=
      replaceExistingDocuments_frame o (documentExists o s cfg v).2 cfg v
    constructor
    · rw [hcc, documentExists_snd o s cfg v]
    · simp
  · intro o rest'
    rfl

/-- Witness for C1 at a concrete replace scenario: one existing document
with external id "a", an item with id "a" and one caption. -/
theorem claim_C1_witness :
    (∀ o : Oracle, (∀ n, o.listErr n = false) → (∀ n, o.deleteErr n = false) →
      (documentExists o (St.init [⟨"x1", "n", [("external_id", .s "a")]⟩])
        { Replace := true } "a").1 = true →
      ∃ rest, (processYTItem o { Replace := true }
          (St.init [⟨"x1", "n", [("external_id", .s "a")]⟩])
          { videoId := some "a", title := some "T", captions := [some "c"] }).trace =
          (St.init [⟨"x1", "n", [("external_id", .s "a")]⟩]).trace ++
            .list "a" 1 ({ Replace := true } : ImportConfig).Partition ::
            .list "a" 100 ({ Replace := true } : ImportConfig).Partition ::
            (((filterByExternalId
                (St.init [⟨"x1", "n", [("external_id", .s "a")]⟩]).docs "a").take 100).map
              (fun d => NetCall.delete d.id) ++ rest) ∧
        ∀ c ∈ rest, c.isDelete = false ∧ c.isList = false) ∧
    (∀ o : Oracle, ∀ msg : String,
      (documentExists o (St.init [⟨"x1", "n", [("external_id", .s "a")]⟩])
        { Replace := true } "a").1 = true →
      (replaceExistingDocuments o
        (documentExists o (St.init [⟨"x1", "n", [("external_id", .s "a")]⟩])
          { Replace := true } "a").2 { Replace := true } "a").1 = some msg →
      (processYTItem o { Replace := true }
        (St.init [⟨"x1", "n", [("external_id", .s "a")]⟩])
        { videoId := some "a", title := some "T", captions := [some "c"] }).createCnt =
        (St.init [⟨"x1", "n", [("external_id", .s "a")]⟩]).createCnt ∧
      ("failed to replace existing documents for video " ++ "a" ++ ": " ++ msg) ∈
        (processYTItem o { Replace := true }
          (St.init [⟨"x1", "n", [("external_id", .s "a")]⟩])
          { videoId := some "a", title := some "T", captions := [some "c"] }).log) ∧
    (∀ o : Oracle, ∀ rest' : List YTItem,
      ImportYouTube o { Replace := true }
          (St.init [⟨"x1", "n", [("external_id", .s "a")]⟩])
          ({ videoId := some "a", title := some "T", captions := [some "c"] } :: rest') =
        ImportYouTube o { Replace := true }
          (processYTItem o { Replace := true }
            (St.init [⟨"x1", "n", [("external_id", .s "a")]⟩])
            { videoId := some "a", title := some "T", captions := [some "c"] }) rest') :=
  claim_C1 { Replace := true } (St.init [⟨"x1", "n", [("external_id", .s "a")]⟩])
    { videoId := some "a", title := some "T", captions := [some "c"] } "a"
    (by decide) (by decide) (by decide) (by decide)

lemma processWPItem_skipExisting (o : Oracle) (cfg : ImportConfig) (s : St) (item : WPItem)
    (hex : (documentExists o s cfg (item.url.getD "")).1 = true)
    (hforce : cfg.Force = false) (hrep : cfg.Replace = false) :
    processWPItem o cfg s item =
      { (documentExists o s cfg (item.url.getD "")).2 with
          log := (documentExists o s cfg (item.url.getD "")).2.log ++
            ["warning: skipping post with existing document: " ++ item.url.getD ""] } := by
  simp [processWPItem, hex, hforce, hrep]

lemma processWPItem_replaceFail (o : Oracle) (cfg : ImportConfig) (s : St) (item : WPItem)
    (msg : String) (hrep : cfg.Replace = true)
    (hex : (documentExists o s cfg (item.url.getD "")).1 = true)
    (hfail : (replaceExistingDocuments o (documentExists o s cfg (item.url.getD "")).2 cfg
      (item.url.getD "")).1 = some msg) :
    processWPItem o cfg s item =
      { (replaceExistingDocuments o (documentExists o s cfg (item.url.getD "")).2 cfg
          (item.url.getD "")).2 with
          log := (replaceExistingDocuments o (documentExists o s cfg (item.url.getD "")).2 cfg
            (item.url.getD "")).2.log ++
            ["failed to replace existing documents for post " ++ item.url.getD "" ++
              ": " ++ msg] } := by
  simp [processWPItem, hex, hrep, hfail]

lemma processWPItem_noRep_upload (o : Oracle) (cfg : ImportConfig) (s : St) (item : WPItem)
    (hskip : ((documentExists o s cfg (item.url.getD "")).1 &&
      !cfg.Force && !cfg.Replace) = false)
    (hnorep : (cfg.Replace && (documentExists o s cfg (item.url.getD "")).1) = false) :
    (processWPItem o cfg s item).docs =
      (createDocumentRaw o (documentExists o s cfg (item.url.getD "")).2 (item.url.getD "")
        (item.title.getD "") (wpData item)
        (metaSet (metaSet [("sourceType", .s "wordpress")] "url" (.s (item.url.getD "")))
          "title" (.s (item.title.getD ""))) cfg).2.docs ∧
    (processWPItem o cfg s item).trace =
      (createDocumentRaw o (documentExists o s cfg (item.url.getD "")).2 (item.url.getD "")
        (item.title.getD "") (wpData item)
        (metaSet (metaSet [("sourceType", .s "wordpress")] "url" (.s (item.url.getD "")))
          "title" (.s (item.title.getD ""))) cfg).2.trace ∧
    (processWPItem o cfg s item).createCnt =
      (createDocumentRaw o (documentExists o s cfg (item.url.getD "")).2 (item.url.getD "")
        (item.title.getD "") (wpData item)
        (metaSet (metaSet [("sourceType", .s "wordpress")] "url" (.s (item.url.getD "")))
          "title" (.s (item.title.getD ""))) cfg).2.createCnt ∧
    (processWPItem o cfg s item).sleeps =
      (if 0 < cfg.Delay then
        (createDocumentRaw o (documentExists o s cfg (item.url.getD "")).2 (item.url.getD "")
          (item.title.getD "") (wpData item)
          (metaSet (metaSet [("sourceType", .s "wordpress")] "url" (.s (item.url.getD "")))
            "title" (.s (item.title.getD ""))) cfg).2.sleeps + 1
       else
        (createDocumentRaw o (documentExists o s cfg (item.url.getD "")).2 (item.url.getD "")
          (item.title.getD "") (wpData item)
          (metaSet (metaSet [("sourceType", .s "wordpress")] "url" (.s (item.url.getD "")))
            "title" (.s (item.title.getD ""))) cfg).2.sleeps) ∧
    ∃ Λ, (processWPItem o cfg s item).log =
      (createDocumentRaw o (documentExists o s cfg (item.url.getD "")).2 (item.url.getD "")
        (item.title.getD "") (wpData item)
        (metaSet (metaSet [("sourceType", .s "wordpress")] "url" (.s (item.url.getD "")))
          "title" (.s (item.title.getD ""))) cfg).2.log ++ Λ := by
  simp only [processWPItem, hskip, hnorep]
  cases hm : (createDocumentRaw o (documentExists o s cfg (item.url.getD "")).2
      (item.url.getD "") (item.title.getD "") (wpData item)
      (metaSet (metaSet [("sourceType", .s "wordpress")] "url" (.s (item.url.getD "")))
        "title" (.s (item.title.getD ""))) cfg).1 with
  | none =>
    by_cases hd : 0 < cfg.Delay <;>
      simp [hskip, hnorep, hm, hd]
  | some msg =>
    by_cases hd : 0 < cfg.Delay <;>
      refine ⟨?_, ?_, ?_, ?_, ["failed to import post: " ++ msg], ?_⟩ <;>
      simp [hskip, hnorep, hm, hd]

lemma processReadmeEntry_notMd (o : Oracle) (cfg : ImportConfig) (s : St) (entry : ZipEntry)
    (h : goHasSuffix entry.name ".md" = false) :
    processReadmeEntry o cfg s entry = s := by
  simp [processReadmeEntry, h]

lemma processReadmeEntry_ws (o : Oracle) (cfg : ImportConfig) (s : St) (entry : ZipEntry)
    (hmd : goHasSuffix entry.name ".md" = true) (hws : goTrimSpace entry.content = "") :
    processReadmeEntry o cfg s entry =
      { s with log := s.log ++
          ["warning: refusing to upload empty content: " ++ entry.name] } := by
  simp [processReadmeEntry, hmd, hws]

lemma processReadmeEntry_noSlug (o : Oracle) (cfg : ImportConfig) (s : St) (entry : ZipEntry)
    (hmd : goHasSuffix entry.name ".md" = true) (hws : goTrimSpace entry.content ≠ "")
    (hslug : slugOf (readmeParsedMetadata entry.content) = "") :
    processReadmeEntry o cfg s entry =
      { s with log := s.log ++
          ["warning: skipping document without slug: " ++ entry.name] } := by
  simp [processReadmeEntry, hmd, hws, hslug]

lemma processWPItem_trace_ext (o : Oracle) (cfg : ImportConfig) (s : St) (item : WPItem) :
    ∃ rest, (processWPItem o cfg s item).trace =
      s.trace ++ .list (item.url.getD "") 1 cfg.Partition :: rest := by
  have hs2 := documentExists_snd o s cfg (item.url.getD "")
  by_cases hskip : ((documentExists o s cfg (item.url.getD "")).1 &&
      !cfg.Force && !cfg.Replace) = true
  · exact ⟨[], by simp [processWPItem, hskip, hs2]⟩
  · rw [Bool.not_eq_true] at hskip
    by_cases hrb : (cfg.Replace && (documentExists o s cfg (item.url.getD "")).1) = true
    · obtain ⟨Δ, hΔ, _, _, _, _, _⟩ := replaceExistingDocuments_frame o
        (documentExists o s cfg (item.url.getD "")).2 cfg (item.url.getD "")
      cases hm : (replaceExistingDocuments o (documentExists o s cfg (item.url.getD "")).2
          cfg (item.url.getD "")).1 with
      | some msg =>
        refine ⟨.list (item.url.getD "") 100 cfg.Partition :: Δ, ?_⟩
        simp [processWPItem, hskip, hrb, hm]
        rw [hΔ, hs2]
        simp
      | none =>
        obtain ⟨Δ2, hΔ2, _, _, _, _⟩ := createDocumentRaw_frame o
          (replaceExistingDocuments o (documentExists o s cfg (item.url.getD "")).2 cfg
            (item.url.getD "")).2
          (item.url.getD "") (item.title.getD "") (wpData item)
          (metaSet (metaSet [("sourceType", .s "wordpress")] "url" (.s (item.url.getD "")))
            "title" (.s (item.title.getD ""))) cfg
        refine ⟨.list (item.url.getD "") 100 cfg.Partition :: (Δ ++ Δ2), ?_⟩
        cases hcr : (createDocumentRaw o
            (replaceExistingDocuments o (documentExists o s cfg (item.url.getD "")).2 cfg
              (item.url.getD "")).2
            (item.url.getD "") (item.title.getD "") (wpData item)
            (metaSet (metaSet [("sourceType", .s "wordpress")] "url"
              (.s (item.url.getD ""))) "title" (.s (item.title.getD ""))) cfg).1 with
        | none =>
          by_cases hd : 0 < cfg.Delay
          all_goals
            simp [processWPItem, hskip, hrb, hm, hcr, hd]
          all_goals
            rw [hΔ2, hΔ, hs2]
          all_goals
            simp
        | some msg =>
          by_cases hd : 0 < cfg.Delay
          all_goals
            simp [processWPItem, hskip, hrb, hm, hcr, hd]
          all_goals
            rw [hΔ2, hΔ, hs2]
          all_goals
            simp
    · rw [Bool.not_eq_true] at hrb
      obtain ⟨Δ2, hΔ2, _, _, _, _⟩ := createDocumentRaw_frame o
        (documentExists o s cfg (item.url.getD "")).2
        (item.url.getD "") (item.title.getD "") (wpData item)
        (metaSet (metaSet [("sourceType", .s "wordpress")] "url" (.s (item.url.getD "")))
          "title" (.s (item.title.getD ""))) cfg
      refine ⟨Δ2, ?_⟩
      cases hcr : (createDocumentRaw o (documentExists o s cfg (item.url.getD "")).2
          (item.url.getD "") (item.title.getD "") (wpData item)
          (metaSet (metaSet [("sourceType", .s "wordpress")] "url"
            (.s (item.url.getD ""))) "title" (.s (item.title.getD ""))) cfg).1 with
      | none =>
        by_cases hd : 0 < cfg.Delay
        all_goals
          simp [processWPItem, hskip, hrb, hcr, hd]
        all_goals
          rw [hΔ2, hs2]
        all_goals
          simp
      | some msg =>
        by_cases hd : 0 < cfg.Delay
        all_goals
          simp [processWPItem, hskip, hrb, hcr, hd]
        all_goals
          rw [hΔ2, hs2]
        all_goals
          simp

lemma createDocument_dry (o : Oracle) (s : St) (eid nm fd fn : String) (md : Metadata)
    (cfg : ImportConfig) (hdry : cfg.DryRun = true) :
    createDocument o s eid nm fd fn md cfg =
      (none, { s with log := s.log ++ ["would save document: " ++ nm] }) := by
  simp [createDocument, hdry]

lemma createDocument_trace (o : Oracle) (s : St) (eid nm fd fn : String) (md : Metadata)
    (cfg : ImportConfig) (hdry : cfg.DryRun = false) :
    (createDocument o s eid nm fd fn md cfg).2.trace =
      s.trace ++ [.createFile cfg.Partition nm fd fn
        (metaSet md "external_id" (.s eid)) (ConstructMode cfg)] := by
  by_cases hc : o.createErr s.createCnt <;>
    simp [createDocument, hdry, createDocumentFileApi, hc]

lemma createDocument_createCnt (o : Oracle) (s : St) (eid nm fd fn : String) (md : Metadata)
    (cfg : ImportConfig) (hdry : cfg.DryRun = false) :
    (createDocument o s eid nm fd fn md cfg).2.createCnt = s.createCnt + 1 := by
  by_cases hc : o.createErr s.createCnt <;>
    simp [createDocument, hdry, createDocumentFileApi, hc]

lemma createDocument_frame (o : Oracle) (s : St) (eid nm fd fn : String) (md : Metadata)
    (cfg : ImportConfig) :
    ∃ Δ, (createDocument o s eid nm fd fn md cfg).2.trace = s.trace ++ Δ ∧
      (∀ c ∈ Δ, c.isDelete = false ∧ c.isList = false) ∧
      (createDocument o s eid nm fd fn md cfg).2.sleeps = s.sleeps ∧
      ∃ Λ, (createDocument o s eid nm fd fn md cfg).2.log = s.log ++ Λ := by
  by_cases hdry : cfg.DryRun
  · exact ⟨[], by simp [createDocument, hdry], by simp,
      by simp [createDocument, hdry], ["would save document: " ++ nm],
      by simp [createDocument, hdry]⟩
  · by_cases hc : o.createErr s.createCnt
    · refine ⟨[.createFile cfg.Partition nm fd fn
        (metaSet md "external_id" (.s eid)) (ConstructMode cfg)], ?_, ?_, ?_, [], ?_⟩ <;>
        simp [createDocument, hdry, createDocumentFileApi, hc,
          NetCall.isDelete, NetCall.isList]
    · refine ⟨[.createFile cfg.Partition nm fd fn
        (metaSet md "external_id" (.s eid)) (ConstructMode cfg)], ?_, ?_, ?_,
        ["saved: " ++ ("doc-" ++ toString s.nextId)], ?_⟩ <;>
        simp [createDocument, hdry, createDocumentFileApi, hc,
          NetCall.isDelete, NetCall.isList]

lemma importFile_noConflict_empty (o : Oracle) (cfg : ImportConfig) (s : St) (f : FileEntry)
    (hex : (documentExists o s cfg f.relPath).1 = false)
    (hws : goTrimSpace f.content = "") :
    importFile o cfg s f =
      { (documentExists o s cfg f.relPath).2 with
          log := (documentExists o s cfg f.relPath).2.log ++
            ["warning: skipping empty file: " ++ f.path] } := by
  simp [importFile, hex, hws]

lemma importFile_empty_createCnt (o : Oracle) (cfg : ImportConfig) (s : St) (f : FileEntry)
    (hws : goTrimSpace f.content = "") :
    (importFile o cfg s f).createCnt = s.createCnt := by
  have hs2 := documentExists_snd o s cfg f.relPath
  by_cases hskip : ((documentExists o s cfg f.relPath).1 &&
      !cfg.Force && !cfg.Replace) = true
  · simp [importFile, hskip, hs2]
  · rw [Bool.not_eq_true] at hskip
    by_cases hrb : (cfg.Replace && (documentExists o s cfg f.relPath).1) = true
    · obtain ⟨_, _, _, hcc, _, _, _⟩ := replaceExistingDocuments_frame o
        (documentExists o s cfg f.relPath).2 cfg f.relPath
      cases hm : (replaceExistingDocuments o (documentExists o s cfg f.relPath).2
          cfg f.relPath).1 with
      | some msg =>
        simp [importFile, hskip, hrb, hm]
        rw [hcc, hs2]
      | none =>
        simp [importFile, hskip, hrb, hm, hws]
        rw [hcc, hs2]
    · rw [Bool.not_eq_true] at hrb
      simp [importFile, hskip, hrb, hws, hs2]

lemma importFile_trace_ext (o : Oracle) (cfg : ImportConfig) (s : St) (f : FileEntry) :
    ∃ rest, (importFile o cfg s f).trace =
      s.trace ++ .list f.relPath 1 cfg.Partition :: rest := by
  have hs2 := documentExists_snd o s cfg f.relPath
  by_cases hskip : ((documentExists o s cfg f.relPath).1 &&
      !cfg.Force && !cfg.Replace) = true
  · exact ⟨[], by simp [importFile, hskip, hs2]⟩
  · rw [Bool.not_eq_true] at hskip
    by_cases hrb : (cfg.Replace && (documentExists o s cfg f.relPath).1) = true
    · obtain ⟨Δ, hΔ, _, _, _, _, _⟩ := replaceExistingDocuments_frame o
        (documentExists o s cfg f.relPath).2 cfg f.relPath
      cases hm : (replaceExistingDocuments o (documentExists o s cfg f.relPath).2
          cfg f.relPath).1 with
      | some msg =>
        refine ⟨.list f.relPath 100 cfg.Partition :: Δ, ?_⟩
        simp [importFile, hskip, hrb, hm]
        rw [hΔ, hs2]
        simp
      | none =>
        by_cases hws : (goTrimSpace f.content).length = 0
        · refine ⟨.list f.relPath 100 cfg.Partition :: Δ, ?_⟩
          simp [importFile, hskip, hrb, hm, hws]
          rw [hΔ, hs2]
          simp
        · obtain ⟨Δ2, hΔ2, _, _, _, _⟩ := createDocument_frame o
            (replaceExistingDocuments o (documentExists o s cfg f.relPath).2 cfg f.relPath).2
            f.relPath (baseName f.path) f.content (baseName f.path)
            [("source_type", .s "files"), ("path", .s f.relPath),
             ("extension", .s (fileExt f.path)), ("size", .n f.size),
             ("mod_time", .s f.modTime)] cfg
          refine ⟨.list f.relPath 100 cfg.Partition :: (Δ ++ Δ2), ?_⟩
          cases hcr : (createDocument o
              (replaceExistingDocuments o (documentExists o s cfg f.relPath).2 cfg
                f.relPath).2
              f.relPath (baseName f.path) f.content (baseName f.path)
              [("source_type", .s "files"), ("path", .s f.relPath),
               ("extension", .s (fileExt f.path)), ("size", .n f.size),
               ("mod_time", .s f.modTime)] cfg).1 with
          | none =>
            by_cases hd : 0 < cfg.Delay
            all_goals
              simp [importFile, hskip, hrb, hm, hws, hcr, hd]
            all_goals
              rw [hΔ2, hΔ, hs2]
            all_goals
              simp
          | some msg =>
            by_cases hd : 0 < cfg.Delay
            all_goals
              simp [importFile, hskip, hrb, hm, hws, hcr, hd]
            all_goals
              rw [hΔ2, hΔ, hs2]
            all_goals
              simp
    · rw [Bool.not_eq_true] at hrb
      by_cases hws : (goTrimSpace f.content).length = 0
      · exact ⟨[], by simp [importFile, hskip, hrb, hws, hs2]⟩
      · obtain ⟨Δ2, hΔ2, _, _, _, _⟩ := createDocument_frame o
          (documentExists o s cfg f.relPath).2
          f.relPath (baseName f.path) f.content (baseName f.path)
          [("source_type", .s "files"), ("path", .s f.relPath),
           ("extension", .s (fileExt f.path)), ("size", .n f.size),
           ("mod_time", .s f.modTime)] cfg
        refine ⟨Δ2, ?_⟩
        cases hcr : (createDocument o (documentExists o s cfg f.relPath).2
            f.relPath (baseName f.path) f.content (baseName f.path)
            [("source_type", .s "files"), ("path", .s f.relPath),
             ("extension", .s (fileExt f.path)), ("size", .n f.size),
             ("mod_time", .s f.modTime)] cfg).1 with
        | none =>
          by_cases hd : 0 < cfg.Delay
          all_goals
            simp [importFile, hskip, hrb, hws, hcr, hd]
          all_goals
            rw [hΔ2, hs2]
          all_goals
            simp
        | some msg =>
          by_cases hd : 0 < cfg.Delay
          all_goals
            simp [importFile, hskip, hrb, hws, hcr, hd]
          all_goals
            rw [hΔ2, hs2]
          all_goals
            simp

lemma processZipEntry_noConflict_empty (o : Oracle) (cfg : ImportConfig) (zf : String)
    (s : St) (f : ZipEntry) (hdir : f.isDir = false)
    (hex : (documentExists o s cfg f.name).1 = false)
    (hws : goTrimSpace f.content = "") :
    processZipEntry o cfg zf s f =
      { (documentExists o s cfg f.name).2 with
          log := (documentExists o s cfg f.name).2.log ++
            ["warning: skipping empty file: " ++ f.name] } := by
  simp [processZipEntry, hdir, hex, hws]

lemma processZipEntry_empty_createCnt (o : Oracle) (cfg : ImportConfig) (zf : String)
    (s : St) (f : ZipEntry) (hws : goTrimSpace f.content = "") :
    (processZipEntry o cfg zf s f).createCnt = s.createCnt := by
  by_cases hdir : f.isDir = true
  · simp [processZipEntry, hdir]
  · rw [Bool.not_eq_true] at hdir
    have hs2 := documentExists_snd o s cfg f.name
    by_cases hskip : ((documentExists o s cfg f.name).1 &&
        !cfg.Force && !cfg.Replace) = true
    · simp [processZipEntry, hdir, hskip, hs2]
    · rw [Bool.not_eq_true] at hskip
      by_cases hrb : (cfg.Replace && (documentExists o s cfg f.name).1) = true
      · obtain ⟨_, _, _, hcc, _, _, _⟩ := replaceExistingDocuments_frame o
          (documentExists o s cfg f.name).2 cfg f.name
        cases hm : (replaceExistingDocuments o (documentExists o s cfg f.name).2
            cfg f.name).1 with
        | some msg =>
          simp [processZipEntry, hdir, hskip, hrb, hm]
          rw [hcc, hs2]
        | none =>
          simp [processZipEntry, hdir, hskip, hrb, hm, hws]
          rw [hcc, hs2]
      · rw [Bool.not_eq_true] at hrb
        simp [processZipEntry, hdir, hskip, hrb, hws, hs2]

lemma processZipEntry_trace_ext (o : Oracle) (cfg : ImportConfig) (zf : String)
    (s : St) (f : ZipEntry) (hdir : f.isDir = false) :
    ∃ rest, (processZipEntry o cfg zf s f).trace =
      s.trace ++ .list f.name 1 cfg.Partition :: rest := by
  have hs2 := documentExists_snd o s cfg f.name
  by_cases hskip : ((documentExists o s cfg f.name).1 &&
      !cfg.Force && !cfg.Replace) = true
  · exact ⟨[], by simp [processZipEntry, hdir, hskip, hs2]⟩
  · rw [Bool.not_eq_true] at hskip
    by_cases hrb : (cfg.Replace && (documentExists o s cfg f.name).1) = true
    · obtain ⟨Δ, hΔ, _, _, _, _, _⟩ := replaceExistingDocuments_frame o
        (documentExists o s cfg f.name).2 cfg f.name
      cases hm : (replaceExistingDocuments o (documentExists o s cfg f.name).2
          cfg f.name).1 with
      | some msg =>
        refine ⟨.list f.name 100 cfg.Partition :: Δ, ?_⟩
        simp [processZipEntry, hdir, hskip, hrb, hm]
        rw [hΔ, hs2]
        simp
      | none =>
        by_cases hws : (goTrimSpace f.content).length = 0
        · refine ⟨.list f.name 100 cfg.Partition :: Δ, ?_⟩
          simp [processZipEntry, hdir, hskip, hrb, hm, hws]
          rw [hΔ, hs2]
          simp
        · obtain ⟨Δ2, hΔ2, _, _, _, _⟩ := createDocument_frame o
            (replaceExistingDocuments o (documentExists o s cfg f.name).2 cfg f.name).2
            f.name (baseName f.name) f.content f.name
            [("source_type", .s "zip"), ("path", .s f.name),
             ("extension", .s (fileExt f.name)), ("size", .n f.uncompressedSize),
             ("mod_time", .s f.modTime), ("compressed_size", .n f.compressedSize),
             ("zip_source", .s (baseName zf))] cfg
          refine ⟨.list f.name 100 cfg.Partition :: (Δ ++ Δ2), ?_⟩
          cases hcr : (createDocument o
              (replaceExistingDocuments o (documentExists o s cfg f.name).2 cfg f.name).2
              f.name (baseName f.name) f.content f.name
              [("source_type", .s "zip"), ("path", .s f.name),
               ("extension", .s (fileExt f.name)), ("size", .n f.uncompressedSize),
               ("mod_time", .s f.modTime), ("compressed_size", .n f.compressedSize),
               ("zip_source", .s (baseName zf))] cfg).1 with
          | none =>
            by_cases hd : 0 < cfg.Delay
            all_goals
              simp [processZipEntry, hdir, hskip, hrb, hm, hws, hcr, hd]
            all_goals
              rw [hΔ2, hΔ, hs2]
            all_goals
              simp
          | some msg =>
            by_cases hd : 0 < cfg.Delay
            all_goals
              simp [processZipEntry, hdir, hskip, hrb, hm, hws, hcr, hd]
            all_goals
              rw [hΔ2, hΔ, hs2]
            all_goals
              simp
    · rw [Bool.not_eq_true] at hrb
      by_cases hws : (goTrimSpace f.content).length = 0
      · exact ⟨[], by simp [processZipEntry, hdir, hskip, hrb, hws, hs2]⟩
      · obtain ⟨Δ2, hΔ2, _, _, _, _⟩ := createDocument_frame o
          (documentExists o s cfg f.name).2
          f.name (baseName f.name) f.content f.name
          [("source_type", .s "zip"), ("path", .s f.name),
           ("extension", .s (fileExt f.name)), ("size", .n f.uncompressedSize),
           ("mod_time", .s f.modTime), ("compressed_size", .n f.compressedSize),
           ("zip_source", .s (baseName zf))] cfg
        refine ⟨Δ2, ?_⟩
        cases hcr : (createDocument o (documentExists o s cfg f.name).2
            f.name (baseName f.name) f.content f.name
            [("source_type", .s "zip"), ("path", .s f.name),
             ("extension", .s (fileExt f.name)), ("size", .n f.uncompressedSize),
             ("mod_time", .s f.modTime), ("compressed_size", .n f.compressedSize),
             ("zip_source", .s (baseName zf))] cfg).1 with
        | none =>
          by_cases hd : 0 < cfg.Delay
          all_goals
            simp [processZipEntry, hdir, hskip, hrb, hws, hcr, hd]
          all_goals
            rw [hΔ2, hs2]
          all_goals
            simp
        | some msg =>
          by_cases hd : 0 < cfg.Delay
          all_goals
            simp [processZipEntry, hdir, hskip, hrb, hws, hcr, hd]
          all_goals
            rw [hΔ2, hs2]
          all_goals
            simp

/-- C2: a transport error on the existence-check list request makes
documentExists return false (fail-open) with the error swallowed, so the
item proceeds to upload — with every list call failing, a create call is
still issued (createCnt grows by one), which can duplicate an existing
document. -/
theorem claim_C2 (cfg : ImportConfig) (s : St) (item : YTItem) (v : String)
    (hv : item.videoId.getD "" = v) (hvne : v ≠ "")
    (hdry : cfg.DryRun = false) (hcontent : ytContent item ≠ "") :
    (∀ o : Oracle, ∀ e : String, o.listErr s.listCnt = true →
      (documentExists o s cfg e).1 = false) ∧
    (∀ o : Oracle, (∀ n, o.listErr n = true) →
      (processYTItem o cfg s item).createCnt = s.createCnt + 1) := by
  refine ⟨fun o e h => documentExists_fst_err o s cfg e h, fun o hall => ?_⟩
  have hex : (documentExists o s cfg v).1 = false :=
    documentExists_fst_err o s cfg v (hall _)
  obtain ⟨_, _, hcc, _, _⟩ := processYTItem_noRep_upload o cfg s item v hv hvne
    (by simp [hex]) (by simp [hex]) hcontent
  rw [hcc, createDocumentRaw_createCnt o (documentExists o s cfg v).2 v
    (item.title.getD "") (ytContent item) [("title", .s (item.title.getD ""))] cfg hdry,
    documentExists_snd o s cfg v]

/-- Witness for C2: a server already holding a document with external id
"a" and an item with the same id; under an always-failing list oracle the
check reports false and the item is nevertheless uploaded. -/
theorem claim_C2_witness :
    (∀ o : Oracle, ∀ e : String,
      o.listErr (St.init [⟨"x1", "n", [("external_id", .s "a")]⟩]).listCnt = true →
      (documentExists o (St.init [⟨"x1", "n", [("external_id", .s "a")]⟩]) {} e).1 =
        false) ∧
    (∀ o : Oracle, (∀ n, o.listErr n = true) →
      (processYTItem o {} (St.init [⟨"x1", "n", [("external_id", .s "a")]⟩])
        { videoId := some "a", title := some "T", captions := [some "c"] }).createCnt =
        (St.init [⟨"x1", "n", [("external_id", .s "a")]⟩]).createCnt + 1) :=
  claim_C2 {} (St.init [⟨"x1", "n", [("external_id", .s "a")]⟩])
    { videoId := some "a", title := some "T", captions := [some "c"] } "a"
    (by decide) (by decide) (by decide) (by decide)

/-- C3 counterexample: a WordPress post with a missing url derives an empty
external id, yet the importer still issues network calls — first the
existence-check list request, then even an upload — contradicting the
claimed warn-and-skip-with-zero-network-calls for every import type. -/
theorem claim_C3_cex :
    (processWPItem okOracle {} (St.init []) {}).trace =
      [.list "" 1 "", .createRaw "" "" "\n\n\n\n"
        [("sourceType", .s "wordpress"), ("url", .s ""), ("title", .s ""),
         ("external_id", .s "")]] := by decide

/-- C3 (amended): the empty-externalID warn-and-skip guard with zero
network calls exists only on the YouTube path (empty or missing videoId)
and the ReadmeIO path (empty slug); WordPress performs the existence
check — and proceeds — even with an empty url, and the files/zip paths
run their existence check on the path-derived id without any emptiness
guard. -/
theorem claim_C3 :
    (∀ (o : Oracle) (cfg : ImportConfig) (s : St) (item : YTItem),
      item.videoId.getD "" = "" →
      processYTItem o cfg s item =
        { s with log := s.log ++ ["warning: skipping item with no videoId"] }) ∧
    (∀ (o : Oracle) (cfg : ImportConfig) (s : St) (entry : ZipEntry),
      goHasSuffix entry.name ".md" = true → goTrimSpace entry.content ≠ "" →
      slugOf (readmeParsedMetadata entry.content) = "" →
      processReadmeEntry o cfg s entry =
        { s with log := s.log ++
            ["warning: skipping document without slug: " ++ entry.name] }) ∧
    (∀ (o : Oracle) (cfg : ImportConfig) (s : St) (item : WPItem),
      item.url.getD "" = "" →
      ∃ rest, (processWPItem o cfg s item).trace =
        s.trace ++ .list "" 1 cfg.Partition :: rest) ∧
    (∀ (o : Oracle) (cfg : ImportConfig) (s : St) (f : FileEntry),
      f.relPath = "" →
      ∃ rest, (importFile o cfg s f).trace =
        s.trace ++ .list "" 1 cfg.Partition :: rest) ∧
    (∀ (o : Oracle) (cfg : ImportConfig) (zf : String) (s : St) (f : ZipEntry),
      f.isDir = false → f.name = "" →
      ∃ rest, (processZipEntry o cfg zf s f).trace =
        s.trace ++ .list "" 1 cfg.Partition :: rest) := by
  refine ⟨?_, ?_, ?_, ?_, ?_⟩
  · intro o cfg s item h
    exact processYTItem_emptyId o cfg s item h
  · intro o cfg s entry hmd hws hslug
    exact processReadmeEntry_noSlug o cfg s entry hmd hws hslug
  · intro o cfg s item hurl
    simpa [hurl] using processWPItem_trace_ext o cfg s item
  · intro o cfg s f hrel
    simpa [hrel] using importFile_trace_ext o cfg s f
  · intro o cfg zf s f hdir hname
    simpa [hname] using processZipEntry_trace_ext o cfg zf s f hdir

/-- Witness for the amended C3 at concrete items of each kind. -/
theorem claim_C3_witness :
    (processYTItem okOracle {} (St.init []) { videoId := some "" } =
      { St.init [] with
          log := (St.init []).log ++ ["warning: skipping item with no videoId"] }) ∧
    (processReadmeEntry okOracle {} (St.init [])
        { name := "a.md", content := "no frontmatter" } =
      { St.init [] with
          log := (St.init []).log ++
            ["warning: skipping document without slug: " ++ "a.md"] }) ∧
    (∃ rest, (processWPItem okOracle {} (St.init []) {}).trace =
      (St.init []).trace ++ .list "" 1 ({} : ImportConfig).Partition :: rest) ∧
    (∃ rest, (importFile okOracle {} (St.init [])
        { path := "", relPath := "", content := "x" }).trace =
      (St.init []).trace ++ .list "" 1 ({} : ImportConfig).Partition :: rest) ∧
    (∃ rest, (processZipEntry okOracle {} "z.zip" (St.init [])
        { name := "", content := "x" }).trace =
      (St.init []).trace ++ .list "" 1 ({} : ImportConfig).Partition :: rest) :=
  ⟨claim_C3.1 okOracle {} (St.init []) { videoId := some "" } (by decide),
   claim_C3.2.1 okOracle {} (St.init []) { name := "a.md", content := "no frontmatter" }
     (by decide) (by decide) (by decide),
   claim_C3.2.2.1 okOracle {} (St.init []) {} (by decide),
   claim_C3.2.2.2.1 okOracle {} (St.init []) { path := "", relPath := "", content := "x" }
     (by decide),
   claim_C3.2.2.2.2 okOracle {} "z.zip" (St.init []) { name := "", content := "x" }
     (by decide) (by decide)⟩

/-- C4: the mode payload attached to a binary (files/zip) upload equals
ConstructMode of the configuration (spec-modelled, as the defining file is
absent from src/): the default configuration yields nil and no mode form
field at all; a bare "fast" mode yields the bare string; mode "all" yields
the structured value with audio true and video "audio_video"; and the
inline-text (raw) upload payload carries no mode key whatsoever. -/
theorem claim_C4 :
    ConstructMode {} = .null ∧
    modeFieldValue (ConstructMode {}) = none ∧
    ConstructMode { Mode := "fast" } = .str "fast" ∧
    modeFieldValue (ConstructMode { Mode := "fast" }) = some "fast" ∧
    ConstructMode { Mode := "all" } =
      .structured { static := "", audio := true, video := "audio_video" } ∧
    modeFieldValue (ConstructMode { Mode := "all" }) =
      some "\x7b\"audio\":true,\"video\":\"audio_video\"\x7d" ∧
    (∀ p : String, "mode" ∉ rawPayloadKeys p) ∧
    (∀ (o : Oracle) (s : St) (eid nm fd fn : String) (md : Metadata)
      (cfg : ImportConfig), cfg.DryRun = false →
      (createDocument o s eid nm fd fn md cfg).2.trace =
        s.trace ++ [.createFile cfg.Partition nm fd fn
          (metaSet md "external_id" (.s eid)) (ConstructMode cfg)]) := by
  refine ⟨by decide, by decide, by decide, by decide, by decide, by decide, ?_, ?_⟩
  · intro p
    rcases eq_or_ne p "" with h | h <;> simp [rawPayloadKeys, h]
  · intro o s eid nm fd fn md cfg hdry
    exact createDocument_trace o s eid nm fd fn md cfg hdry

/-- Witness for C4's call-site conjunct at a concrete non-dry-run upload. -/
theorem claim_C4_witness :
    (createDocument okOracle (St.init []) "e" "n" "d" "f" [] {}).2.trace =
      (St.init []).trace ++ [.createFile ({} : ImportConfig).Partition "n" "d" "f"
        (metaSet [] "external_id" (.s "e")) (ConstructMode {})] :=
  claim_C4.2.2.2.2.2.2.2 okOracle (St.init []) "e" "n" "d" "f" [] {} (by decide)

lemma wpData_ne (item : WPItem) : wpData item ≠ "" := by
  intro h
  have h2 := congrArg String.length h
  have hsep : ("\n\n" : String).length = 2 := rfl
  simp [wpData, String.length_append, hsep] at h2

lemma processYTItem_emptyContent_createCnt (o : Oracle) (cfg : ImportConfig) (s : St)
    (item : YTItem) (h : ytContent item = "") :
    (processYTItem o cfg s item).createCnt = s.createCnt := by
  by_cases hvid : item.videoId.getD "" = ""
  · rw [processYTItem_emptyId o cfg s item hvid]
  · have hs2 := documentExists_snd o s cfg (item.videoId.getD "")
    by_cases hskip : ((documentExists o s cfg (item.videoId.getD "")).1 &&
        !cfg.Force && !cfg.Replace) = true
    · simp [processYTItem, hvid, hskip, hs2]
    · rw [Bool.not_eq_true] at hskip
      by_cases hrb : (cfg.Replace && (documentExists o s cfg (item.videoId.getD "")).1) =
          true
      · obtain ⟨_, _, _, hcc, _, _, _⟩ := replaceExistingDocuments_frame o
          (documentExists o s cfg (item.videoId.getD "")).2 cfg (item.videoId.getD "")
        cases hm : (replaceExistingDocuments o
            (documentExists o s cfg (item.videoId.getD "")).2 cfg
            (item.videoId.getD "")).1 with
        | some msg =>
          simp [processYTItem, hvid, hskip, hrb, hm]
          rw [hcc, hs2]
        | none =>
          simp [processYTItem, hvid, hskip, hrb, hm, h]
          rw [hcc, hs2]
      · simp [processYTItem, hvid, hskip, hrb, h, hs2]

/-- C5 counterexample: (i) a WordPress post with empty fields assembles the
whitespace-only body of four newlines yet is uploaded with no warning;
(ii) a YouTube item whose only caption is a space assembles a
whitespace-only body and is uploaded; (iii) on the ReadmeIO path the
empty-content guard fires before the existence check (no list call
precedes the warning), not after identity/conflict resolution. -/
theorem claim_C5_cex :
    ((processWPItem okOracle {} (St.init []) { url := some "u" }).trace =
        [.list "u" 1 "", .createRaw "" "" "\n\n\n\n"
          [("sourceType", .s "wordpress"), ("url", .s "u"), ("title", .s ""),
           ("external_id", .s "u")]] ∧
      (processWPItem okOracle {} (St.init []) { url := some "u" }).log =
        ["saved: doc-0"] ∧
      goTrimSpace "\n\n\n\n" = "") ∧
    ((processYTItem okOracle {} (St.init [])
        { videoId := some "a", captions := [some " "] }).createCnt = 1 ∧
      goTrimSpace (ytContent { videoId := some "a", captions := [some " "] }) = "") ∧
    ((processReadmeEntry okOracle {} (St.init []) { name := "a.md", content := " " }).trace =
        [] ∧
      (processReadmeEntry okOracle {} (St.init []) { name := "a.md", content := " " }).log =
        ["warning: refusing to upload empty content: a.md"]) := by
  refine ⟨⟨by decide, by decide, by decide⟩, ⟨by decide, by decide⟩, by decide, by decide⟩

/-- C5 (amended): the empty-content guard is per-source.  YouTube skips
with a warning exactly when the assembled body is the empty string (a
whitespace-only body passes), and that check runs after the existence
check; ReadmeIO skips when the whole raw file trims to empty, before any
network call; WordPress has no guard at all — its assembled body is never
the empty string and a post is uploaded even when whitespace-only. -/
theorem claim_C5 :
    (∀ (o : Oracle) (cfg : ImportConfig) (s : St) (item : YTItem),
      ytContent item = "" →
      (processYTItem o cfg s item).createCnt = s.createCnt) ∧
    (∀ (o : Oracle) (cfg : ImportConfig) (s : St) (item : YTItem) (v : String),
      item.videoId.getD "" = v → v ≠ "" →
      (documentExists o s cfg v).1 = false → ytContent item = "" →
      processYTItem o cfg s item =
        { (documentExists o s cfg v).2 with
            log := (documentExists o s cfg v).2.log ++
              ["warning: refusing to upload empty content: " ++ v] }) ∧
    (∀ (o : Oracle) (cfg : ImportConfig) (s : St) (entry : ZipEntry),
      goHasSuffix entry.name ".md" = true → goTrimSpace entry.content = "" →
      processReadmeEntry o cfg s entry =
        { s with log := s.log ++
            ["warning: refusing to upload empty content: " ++ entry.name] }) ∧
    (∀ item : WPItem, wpData item ≠ "") ∧
    (∀ (o : Oracle) (cfg : ImportConfig) (s : St) (item : WPItem),
      cfg.DryRun = false →
      (documentExists o s cfg (item.url.getD "")).1 = false →
      (processWPItem o cfg s item).createCnt = s.createCnt + 1) := by
  refine ⟨processYTItem_emptyContent_createCnt, ?_, ?_, wpData_ne, ?_⟩
  · intro o cfg s item v hv hvne hex hcontent
    exact processYTItem_noRep_emptyContent o cfg s item v hv hvne
      (by simp [hex]) (by simp [hex]) hcontent
  · intro o cfg s entry hmd hws
    exact processReadmeEntry_ws o cfg s entry hmd hws
  · intro o cfg s item hdry hex
    obtain ⟨_, _, hcc, _, _⟩ := processWPItem_noRep_upload o cfg s item
      (by simp [hex]) (by simp [hex])
    rw [hcc, createDocumentRaw_createCnt o (documentExists o s cfg (item.url.getD "")).2
      (item.url.getD "") (item.title.getD "") (wpData item)
      (metaSet (metaSet [("sourceType", .s "wordpress")] "url" (.s (item.url.getD "")))
        "title" (.s (item.title.getD ""))) cfg hdry,
      documentExists_snd o s cfg (item.url.getD "")]

/-- Witness for the amended C5 at concrete items of each affected kind. -/
theorem claim_C5_witness :
    ((processYTItem okOracle {} (St.init []) { videoId := some "a" }).createCnt =
      (St.init []).createCnt) ∧
    (processYTItem okOracle {} (St.init []) { videoId := some "a" } =
      { (documentExists okOracle (St.init []) {} "a").2 with
          log := (documentExists okOracle (St.init []) {} "a").2.log ++
            ["warning: refusing to upload empty content: " ++ "a"] }) ∧
    (processReadmeEntry okOracle {} (St.init []) { name := "b.md", content := " \t" } =
      { St.init [] with
          log := (St.init []).log ++
            ["warning: refusing to upload empty content: " ++ "b.md"] }) ∧
    (wpData { url := some "u" } ≠ "") ∧
    ((processWPItem okOracle {} (St.init []) { url := some "u" }).createCnt =
      (St.init []).createCnt + 1) :=
  ⟨claim_C5.1 okOracle {} (St.init []) { videoId := some "a" } (by decide),
   claim_C5.2.1 okOracle {} (St.init []) { videoId := some "a" } "a"
     (by decide) (by decide) (by decide) (by decide),
   claim_C5.2.2.1 okOracle {} (St.init []) { name := "b.md", content := " \t" }
     (by decide) (by decide),
   claim_C5.2.2.2.1 { url := some "u" },
   claim_C5.2.2.2.2 okOracle {} (St.init []) { url := some "u" }
     (by decide) (by decide)⟩

lemma replaceExistingDocuments_dry (o : Oracle) (s : St) (cfg : ImportConfig) (e : String)
    (hdry : cfg.DryRun = true) :
    (replaceExistingDocuments o s cfg e).2.docs = s.docs ∧
    (replaceExistingDocuments o s cfg e).2.createCnt = s.createCnt ∧
    (replaceExistingDocuments o s cfg e).2.deleteCnt = s.deleteCnt ∧
    (replaceExistingDocuments o s cfg e).2.trace =
      s.trace ++ [.list e 100 cfg.Partition] := by
  cases h : (listDocuments o s e 100 cfg.Partition).1 with
  | none => simp [replaceExistingDocuments, h, listDocuments_snd]
  | some docs =>
    have hloop := deleteDocsLoop_dry o cfg docs
      { s with listCnt := s.listCnt + 1,
               trace := s.trace ++ [.list e 100 cfg.Partition] } hdry
    simp [replaceExistingDocuments, h, listDocuments_snd, hloop]

lemma replaceExistingDocuments_dry_log (o : Oracle) (s : St) (cfg : ImportConfig)
    (e : String) (hdry : cfg.DryRun = true) (hl : o.listErr s.listCnt = false) :
    (replaceExistingDocuments o s cfg e).2.log =
      s.log ++ ((filterByExternalId s.docs e).take 100).map
        (fun d => "would delete existing document: " ++ d.id) := by
  have hloop := deleteDocsLoop_dry o cfg ((filterByExternalId s.docs e).take 100)
    { s with listCnt := s.listCnt + 1,
             trace := s.trace ++ [.list e 100 cfg.Partition] } hdry
  simp [replaceExistingDocuments, listDocuments, hl, hloop]

lemma processYTItem_dry (o : Oracle) (cfg : ImportConfig) (s : St) (item : YTItem)
    (hdry : cfg.DryRun = true) :
    (processYTItem o cfg s item).docs = s.docs ∧
    (processYTItem o cfg s item).createCnt = s.createCnt ∧
    (processYTItem o cfg s item).deleteCnt = s.deleteCnt ∧
    ∃ Δ, (processYTItem o cfg s item).trace = s.trace ++ Δ ∧
      ∀ c ∈ Δ, c.isList = true := by
  by_cases hvid : item.videoId.getD "" = ""
  · rw [processYTItem_emptyId o cfg s item hvid]
    exact ⟨rfl, rfl, rfl, [], by simp, by simp⟩
  · have hs2 := documentExists_snd o s cfg (item.videoId.getD "")
    by_cases hskip : ((documentExists o s cfg (item.videoId.getD "")).1 &&
        !cfg.Force && !cfg.Replace) = true
    · refine ⟨?_, ?_, ?_, [.list (item.videoId.getD "") 1 cfg.Partition], ?_,
        by simp [NetCall.isList]⟩ <;>
        simp [processYTItem, hvid, hskip, hs2]
    · rw [Bool.not_eq_true] at hskip
      by_cases hrb : (cfg.Replace && (documentExists o s cfg (item.videoId.getD "")).1) =
          true
      · obtain ⟨hrd, hrc, hrdel, hrt⟩ := replaceExistingDocuments_dry o
          (documentExists o s cfg (item.videoId.getD "")).2 cfg
          (item.videoId.getD "") hdry
        cases hm : (replaceExistingDocuments o
            (documentExists o s cfg (item.videoId.getD "")).2 cfg
            (item.videoId.getD "")).1 with
        | some msg =>
          refine ⟨?_, ?_, ?_,
            [.list (item.videoId.getD "") 1 cfg.Partition,
             .list (item.videoId.getD "") 100 cfg.Partition], ?_,
            by simp [NetCall.isList]⟩
          · simp [processYTItem, hvid, hskip, hrb, hm]
            rw [hrd, hs2]
          · simp [processYTItem, hvid, hskip, hrb, hm]
            rw [hrc, hs2]
          · simp [processYTItem, hvid, hskip, hrb, hm]
            rw [hrdel, hs2]
          · simp [processYTItem, hvid, hskip, hrb, hm]
            rw [hrt, hs2]
            simp
        | none =>
          by_cases hcontent : ytContent item = ""
          · refine ⟨?_, ?_, ?_,
              [.list (item.videoId.getD "") 1 cfg.Partition,
               .list (item.videoId.getD "") 100 cfg.Partition], ?_,
              by simp [NetCall.isList]⟩
            · simp [processYTItem, hvid, hskip, hrb, hm, hcontent]
              rw [hrd, hs2]
            · simp [processYTItem, hvid, hskip, hrb, hm, hcontent]
              rw [hrc, hs2]
            · simp [processYTItem, hvid, hskip, hrb, hm, hcontent]
              rw [hrdel, hs2]
            · simp [processYTItem, hvid, hskip, hrb, hm, hcontent]
              rw [hrt, hs2]
              simp
          · have hcr := createDocumentRaw_dry o
              (replaceExistingDocuments o
                (documentExists o s cfg (item.videoId.getD "")).2 cfg
                (item.videoId.getD "")).2
              (item.videoId.getD "") (item.title.getD "") (ytContent item)
              [("title", .s (item.title.getD ""))] cfg hdry
            by_cases hd : 0 < cfg.Delay
            all_goals refine ⟨?_, ?_, ?_,
              [.list (item.videoId.getD "") 1 cfg.Partition,
               .list (item.videoId.getD "") 100 cfg.Partition], ?_,
              by simp [NetCall.isList]⟩
            all_goals
              simp [processYTItem, hvid, hskip, hrb, hm, hcontent, hcr, hd]
            · rw [hrd, hs2]
            · rw [hrc, hs2]
            · rw [hrdel, hs2]
            · rw [hrt, hs2]
              simp
            · rw [hrd, hs2]
            · rw [hrc, hs2]
            · rw [hrdel, hs2]
            · rw [hrt, hs2]
              simp
      · rw [Bool.not_eq_true] at hrb
        by_cases hcontent : ytContent item = ""
        · refine ⟨?_, ?_, ?_, [.list (item.videoId.getD "") 1 cfg.Partition], ?_,
            by simp [NetCall.isList]⟩ <;>
            simp [processYTItem, hvid, hskip, hrb, hcontent, hs2]
        · have hcr := createDocumentRaw_dry o
            (documentExists o s cfg (item.videoId.getD "")).2
            (item.videoId.getD "") (item.title.getD "") (ytContent item)
            [("title", .s (item.title.getD ""))] cfg hdry
          by_cases hd : 0 < cfg.Delay
          all_goals
            refine ⟨?_, ?_, ?_, [.list (item.videoId.getD "") 1 cfg.Partition], ?_,
              by simp [NetCall.isList]⟩
          all_goals
            simp [processYTItem, hvid, hskip, hrb, hcontent, hcr, hd]
          all_goals
            rw [hs2]

lemma ImportYouTube_dry (o : Oracle) (cfg : ImportConfig) (items : List YTItem) (s : St)
    (hdry : cfg.DryRun = true) :
    (ImportYouTube o cfg s items).docs = s.docs ∧
    (ImportYouTube o cfg s items).createCnt = s.createCnt ∧
    (ImportYouTube o cfg s items).deleteCnt = s.deleteCnt ∧
    ∃ Δ, (ImportYouTube o cfg s items).trace = s.trace ++ Δ ∧
      ∀ c ∈ Δ, c.isList = true := by
  induction items generalizing s with
  | nil => exact ⟨rfl, rfl, rfl, [], by simp [ImportYouTube], by simp⟩
  | cons it rest ih =>
    have key : ImportYouTube o cfg s (it :: rest) =
        ImportYouTube o cfg (processYTItem o cfg s it) rest := rfl
    obtain ⟨hd1, hc1, hdel1, Δ1, ht1, hl1⟩ := processYTItem_dry o cfg s it hdry
    obtain ⟨hd2, hc2, hdel2, Δ2, ht2, hl2⟩ := ih (processYTItem o cfg s it)
    refine ⟨by rw [key, hd2, hd1], by rw [key, hc2, hc1], by rw [key, hdel2, hdel1],
      Δ1 ++ Δ2, by rw [key, ht2, ht1]; simp, ?_⟩
    intro c hc
    rcases List.mem_append.mp hc with h | h
    · exact hl1 c h
    · exact hl2 c h

lemma processZipEntry_dry (o : Oracle) (cfg : ImportConfig) (zf : String) (s : St)
    (f : ZipEntry) (hdry : cfg.DryRun = true) :
    (processZipEntry o cfg zf s f).docs = s.docs ∧
    (processZipEntry o cfg zf s f).createCnt = s.createCnt ∧
    (processZipEntry o cfg zf s f).deleteCnt = s.deleteCnt ∧
    ∃ Δ, (processZipEntry o cfg zf s f).trace = s.trace ++ Δ ∧
      ∀ c ∈ Δ, c.isList = true := by
  by_cases hdir : f.isDir = true
  · refine ⟨?_, ?_, ?_, [], ?_, by simp⟩ <;> simp [processZipEntry, hdir]
  · rw [Bool.not_eq_true] at hdir
    have hs2 := documentExists_snd o s cfg f.name
    by_cases hskip : ((documentExists o s cfg f.name).1 && !cfg.Force && !cfg.Replace) =
        true
    · refine ⟨?_, ?_, ?_, [.list f.name 1 cfg.Partition], ?_,
        by simp [NetCall.isList]⟩ <;>
        simp [processZipEntry, hdir, hskip, hs2]
    · rw [Bool.not_eq_true] at hskip
      by_cases hrb : (cfg.Replace && (documentExists o s cfg f.name).1) = true
      · obtain ⟨hrd, hrc, hrdel, hrt⟩ := replaceExistingDocuments_dry o
          (documentExists o s cfg f.name).2 cfg f.name hdry
        cases hm : (replaceExistingDocuments o (documentExists o s cfg f.name).2 cfg
            f.name).1 with
        | some msg =>
          refine ⟨?_, ?_, ?_,
            [.list f.name 1 cfg.Partition, .list f.name 100 cfg.Partition], ?_,
            by simp [NetCall.isList]⟩
          all_goals
            simp [processZipEntry, hdir, hskip, hrb, hm]
          · rw [hrd, hs2]
          · rw [hrc, hs2]
          · rw [hrdel, hs2]
          · rw [hrt, hs2]
            simp
        | none =>
          by_cases hws : (goTrimSpace f.content).length = 0
          · refine ⟨?_, ?_, ?_,
              [.list f.name 1 cfg.Partition, .list f.name 100 cfg.Partition], ?_,
              by simp [NetCall.isList]⟩
            all_goals
              simp [processZipEntry, hdir, hskip, hrb, hm, hws]
            · rw [hrd, hs2]
            · rw [hrc, hs2]
            · rw [hrdel, hs2]
            · rw [hrt, hs2]
              simp
          · have hcr := createDocument_dry o
              (replaceExistingDocuments o (documentExists o s cfg f.name).2 cfg f.name).2
              f.name (baseName f.name) f.content f.name
              [("source_type", .s "zip"), ("path", .s f.name),
               ("extension", .s (fileExt f.name)), ("size", .n f.uncompressedSize),
               ("mod_time", .s f.modTime), ("compressed_size", .n f.compressedSize),
               ("zip_source", .s (baseName zf))] cfg hdry
            by_cases hd : 0 < cfg.Delay
            all_goals refine ⟨?_, ?_, ?_,
              [.list f.name 1 cfg.Partition, .list f.name 100 cfg.Partition], ?_,
              by simp [NetCall.isList]⟩
            all_goals
              simp [processZipEntry, hdir, hskip, hrb, hm, hws, hcr, hd]
            · rw [hrd, hs2]
            · rw [hrc, hs2]
            · rw [hrdel, hs2]
            · rw [hrt, hs2]
              simp
            · rw [hrd, hs2]
            · rw [hrc, hs2]
            · rw [hrdel, hs2]
            · rw [hrt, hs2]
              simp
      · rw [Bool.not_eq_true] at hrb
        by_cases hws : (goTrimSpace f.content).length = 0
        · refine ⟨?_, ?_, ?_, [.list f.name 1 cfg.Partition], ?_,
            by simp [NetCall.isList]⟩ <;>
            simp [processZipEntry, hdir, hskip, hrb, hws, hs2]
        · have hcr := createDocument_dry o (documentExists o s cfg f.name).2
            f.name (baseName f.name) f.content f.name
            [("source_type", .s "zip"), ("path", .s f.name),
             ("extension", .s (fileExt f.name)), ("size", .n f.uncompressedSize),
             ("mod_time", .s f.modTime), ("compressed_size", .n f.compressedSize),
             ("zip_source", .s (baseName zf))] cfg hdry
          by_cases hd : 0 < cfg.Delay
          all_goals
            refine ⟨?_, ?_, ?_, [.list f.name 1 cfg.Partition], ?_,
              by simp [NetCall.isList]⟩
          all_goals
            simp [processZipEntry, hdir, hskip, hrb, hws, hcr, hd]
          all_goals
            rw [hs2]

lemma ImportZip_dry (o : Oracle) (cfg : ImportConfig) (zf : String)
    (entries : List ZipEntry) (s : St) (hdry : cfg.DryRun = true) :
    (ImportZip o cfg zf s entries).docs = s.docs ∧
    (ImportZip o cfg zf s entries).createCnt = s.createCnt ∧
    (ImportZip o cfg zf s entries).deleteCnt = s.deleteCnt ∧
    ∃ Δ, (ImportZip o cfg zf s entries).trace = s.trace ++ Δ ∧
      ∀ c ∈ Δ, c.isList = true := by
  induction entries generalizing s with
  | nil => exact ⟨rfl, rfl, rfl, [], by simp [ImportZip], by simp⟩
  | cons it rest ih =>
    have key : ImportZip o cfg zf s (it :: rest) =
        ImportZip o cfg zf (processZipEntry o cfg zf s it) rest := rfl
    obtain ⟨hd1, hc1, hdel1, Δ1, ht1, hl1⟩ := processZipEntry_dry o cfg zf s it hdry
    obtain ⟨hd2, hc2, hdel2, Δ2, ht2, hl2⟩ := ih (processZipEntry o cfg zf s it)
    refine ⟨by rw [key, hd2, hd1], by rw [key, hc2, hc1], by rw [key, hdel2, hdel1],
      Δ1 ++ Δ2, by rw [key, ht2, ht1]; simp, ?_⟩
    intro c hc
    rcases List.mem_append.mp hc with h | h
    · exact hl1 c h
    · exact hl2 c h

lemma processYTItem_dry_wouldSave (o : Oracle) (cfg : ImportConfig) (s : St)
    (item : YTItem) (v : String) (hdry : cfg.DryRun = true)
    (hv : item.videoId.getD "" = v) (hvne : v ≠ "")
    (hex : (documentExists o s cfg v).1 = false)
    (hcontent : ytContent item ≠ "") :
    ("would save document: " ++ item.title.getD "") ∈ (processYTItem o cfg s item).log := by
  have hcr := createDocumentRaw_dry o (documentExists o s cfg v).2 v
    (item.title.getD "") (ytContent item) [("title", .s (item.title.getD ""))] cfg hdry
  by_cases hd : 0 < cfg.Delay <;>
    simp [processYTItem, hv, hvne, hex, hcontent, hcr, hd]

/-- C6: with dryRun=true, processing any sequence of items issues zero
create and zero delete calls and leaves the remote documents unchanged
(every traced call is a read-only list), while the intended actions are
still announced: an item reaching the upload step logs "would save
document: ..." and the replace step logs "would delete existing document:
..." for each matched document. -/
theorem claim_C6 (cfg : ImportConfig) (hdry : cfg.DryRun = true) :
    (∀ (o : Oracle) (s : St) (items : List YTItem),
      (ImportYouTube o cfg s items).docs = s.docs ∧
      (ImportYouTube o cfg s items).createCnt = s.createCnt ∧
      (ImportYouTube o cfg s items).deleteCnt = s.deleteCnt ∧
      ∃ Δ, (ImportYouTube o cfg s items).trace = s.trace ++ Δ ∧
        ∀ c ∈ Δ, c.isList = true) ∧
    (∀ (o : Oracle) (zf : String) (s : St) (entries : List ZipEntry),
      (ImportZip o cfg zf s entries).docs = s.docs ∧
      (ImportZip o cfg zf s entries).createCnt = s.createCnt ∧
      (ImportZip o cfg zf s entries).deleteCnt = s.deleteCnt ∧
      ∃ Δ, (ImportZip o cfg zf s entries).trace = s.trace ++ Δ ∧
        ∀ c ∈ Δ, c.isList = true) ∧
    (∀ (o : Oracle) (s : St) (item : YTItem) (v : String),
      item.videoId.getD "" = v → v ≠ "" →
      (documentExists o s cfg v).1 = false → ytContent item ≠ "" →
      ("would save document: " ++ item.title.getD "") ∈
        (processYTItem o cfg s item).log) ∧
    (∀ (o : Oracle) (s : St) (e : String), o.listErr s.listCnt = false →
      ∀ d ∈ (filterByExternalId s.docs e).take 100,
        ("would delete existing document: " ++ d.id) ∈
          (replaceExistingDocuments o s cfg e).2.log) := by
  refine ⟨fun o s items => ImportYouTube_dry o cfg items s hdry,
    fun o zf s entries => ImportZip_dry o cfg zf entries s hdry,
    fun o s item v hv hvne hex hcontent =>
      processYTItem_dry_wouldSave o cfg s item v hdry hv hvne hex hcontent,
    ?_⟩
  intro o s e hl d hd
  rw [replaceExistingDocuments_dry_log o s cfg e hdry hl]
  exact List.mem_append_right _ (List.mem_map_of_mem _ hd)

/-- Witness for C6 at a concrete dry-run configuration with replace set,
one remote document, and one matching item. -/
theorem claim_C6_witness :
    ((ImportYouTube okOracle { DryRun := true, Replace := true }
        (St.init [⟨"x1", "n", [("external_id", .s "a")]⟩])
        [{ videoId := some "a", title := some "T", captions := [some "c"] }]).docs =
      (St.init [⟨"x1", "n", [("external_id", .s "a")]⟩]).docs ∧
      (ImportYouTube okOracle { DryRun := true, Replace := true }
        (St.init [⟨"x1", "n", [("external_id", .s "a")]⟩])
        [{ videoId := some "a", title := some "T", captions := [some "c"] }]).createCnt =
      (St.init [⟨"x1", "n", [("external_id", .s "a")]⟩]).createCnt ∧
      (ImportYouTube okOracle { DryRun := true, Replace := true }
        (St.init [⟨"x1", "n", [("external_id", .s "a")]⟩])
        [{ videoId := some "a", title := some "T", captions := [some "c"] }]).deleteCnt =
      (St.init [⟨"x1", "n", [("external_id", .s "a")]⟩]).deleteCnt ∧
      ∃ Δ, (ImportYouTube okOracle { DryRun := true, Replace := true }
        (St.init [⟨"x1", "n", [("external_id", .s "a")]⟩])
        [{ videoId := some "a", title := some "T", captions := [some "c"] }]).trace =
        (St.init [⟨"x1", "n", [("external_id", .s "a")]⟩]).trace ++ Δ ∧
        ∀ c ∈ Δ, c.isList = true) ∧
    (("would save document: " ++
        ({ videoId := some "a", title := some "T",
           captions := [some "c"] } : YTItem).title.getD "") ∈
      (processYTItem okOracle { DryRun := true, Replace := true } (St.init [])
        { videoId := some "a", title := some "T", captions := [some "c"] }).log) ∧
    (∀ d ∈ (filterByExternalId
        (St.init [⟨"x1", "n", [("external_id", .s "a")]⟩]).docs "a").take 100,
      ("would delete existing document: " ++ d.id) ∈
        (replaceExistingDocuments okOracle
          (St.init [⟨"x1", "n", [("external_id", .s "a")]⟩])
          { DryRun := true, Replace := true } "a").2.log) :=
  ⟨(claim_C6 { DryRun := true, Replace := true } (by decide)).1 okOracle
      (St.init [⟨"x1", "n", [("external_id", .s "a")]⟩])
      [{ videoId := some "a", title := some "T", captions := [some "c"] }],
   (claim_C6 { DryRun := true, Replace := true } (by decide)).2.2.1 okOracle
      (St.init []) { videoId := some "a", title := some "T", captions := [some "c"] }
      "a" (by decide) (by decide) (by decide) (by decide),
   (claim_C6 { DryRun := true, Replace := true } (by decide)).2.2.2 okOracle
      (St.init [⟨"x1", "n", [("external_id", .s "a")]⟩]) "a" (by decide)⟩

lemma ytInd_le_one (item : YTItem) (e : String) : ytInd item e ≤ 1 := by
  unfold ytInd
  split <;> simp

lemma ytIndList_cons (it : YTItem) (items : List YTItem) (e : String) :
    ytIndList (it :: items) e = max (ytInd it e) (ytIndList items e) := by
  unfold ytIndList ytInd
  by_cases h1 : it.videoId.getD "" = e ∧ ytContent it ≠ ""
  · rw [if_pos ⟨it, List.mem_cons_self it items, h1.1, h1.2⟩, if_pos h1]
    split <;> simp
  · rw [if_neg h1]
    by_cases h2 : ∃ x ∈ items, x.videoId.getD "" = e ∧ ytContent x ≠ ""
    · obtain ⟨x, hx, hp⟩ := h2
      rw [if_pos ⟨x, List.mem_cons_of_mem it hx, hp⟩,
        if_pos ⟨x, hx, hp⟩]
      simp
    · rw [if_neg ?hc, if_neg h2]
      · simp
      case hc =>
        rintro ⟨x, hx, hp⟩
        rcases List.mem_cons.mp hx with h | h
        · exact h1 (h ▸ hp)
        · exact h2 ⟨x, h, hp⟩

lemma ytInd_le_ytIndList (it : YTItem) (items : List YTItem) (e : String)
    (hmem : it ∈ items) : ytInd it e ≤ ytIndList items e := by
  unfold ytInd ytIndList
  by_cases h1 : it.videoId.getD "" = e ∧ ytContent it ≠ ""
  · rw [if_pos h1, if_pos ⟨it, hmem, h1.1, h1.2⟩]
  · simp [h1]

lemma processYTItem_count (o : Oracle) (cfg : ImportConfig) (s : St) (item : YTItem)
    (hforce : cfg.Force = false) (hrep : cfg.Replace = false) (hdry : cfg.DryRun = false)
    (hlist : ∀ n, o.listErr n = false) (hcreate : ∀ n, o.createErr n = false)
    (e : String) (he : e ≠ "") :
    countExt (processYTItem o cfg s item).docs e =
      max (countExt s.docs e) (ytInd item e) := by
  by_cases hvid : item.videoId.getD "" = ""
  · rw [processYTItem_emptyId o cfg s item hvid]
    have hind : ytInd item e = 0 := by
      unfold ytInd
      rw [if_neg]
      rintro ⟨h1, _⟩
      exact he (hvid ▸ h1).symm
    simp [hind]
  · have hiff := documentExists_fst_iff o s cfg (item.videoId.getD "") (hlist _)
    by_cases hpos : 0 < countExt s.docs (item.videoId.getD "")
    · have hex : (documentExists o s cfg (item.videoId.getD "")).1 = true :=
        hiff.mpr hpos
      rw [processYTItem_skipExisting o cfg s item (item.videoId.getD "") rfl hvid hex
        hforce hrep]
      rw [documentExists_snd o s cfg (item.videoId.getD "")]
      by_cases hev : item.videoId.getD "" = e
      · have hle : ytInd item e ≤ countExt s.docs e := by
          calc ytInd item e ≤ 1 := ytInd_le_one item e
          _ ≤ countExt s.docs e := by rw [← hev]; omega
        simp [Nat.max_eq_left hle]
      · have hind : ytInd item e = 0 := by
          unfold ytInd
          rw [if_neg]
          rintro ⟨h1, _⟩
          exact hev h1
        simp [hind]
    · have hex : (documentExists o s cfg (item.videoId.getD "")).1 = false := by
        cases h : (documentExists o s cfg (item.videoId.getD "")).1 with
        | false => rfl
        | true => exact absurd (hiff.mp h) hpos
      by_cases hcontent : ytContent item = ""
      · rw [processYTItem_noRep_emptyContent o cfg s item (item.videoId.getD "") rfl hvid
          (by simp [hex]) (by simp [hex]) hcontent]
        rw [documentExists_snd o s cfg (item.videoId.getD "")]
        have hind : ytInd item e = 0 := by
          unfold ytInd
          rw [if_neg]
          rintro ⟨_, h2⟩
          exact h2 hcontent
        simp [hind]
      · obtain ⟨hdocs, _, _, _, _⟩ := processYTItem_noRep_upload o cfg s item
          (item.videoId.getD "") rfl hvid (by simp [hex]) (by simp [hex]) hcontent
        rw [hdocs, createDocumentRaw_ok o (documentExists o s cfg (item.videoId.getD "")).2
          (item.videoId.getD "") (item.title.getD "") (ytContent item)
          [("title", .s (item.title.getD ""))] cfg hdry (hcreate _)]
        simp [documentExists_snd o s cfg (item.videoId.getD ""),
          countExt_append, countExt_singleton, metaGet_metaSet]
        by_cases hev : item.videoId.getD "" = e
        · have hn : countExt s.docs e = 0 := by
            rw [← hev]
            omega
          have hind : ytInd item e = 1 := by
            unfold ytInd
            rw [if_pos ⟨hev, hcontent⟩]
          simp [hn, hind, hev]
        · have hind : ytInd item e = 0 := by
            unfold ytInd
            rw [if_neg]
            rintro ⟨h1, _⟩
            exact hev h1
          simp [hind, hev]

lemma ImportYouTube_count (o : Oracle) (cfg : ImportConfig) (items : List YTItem)
    (s : St) (hforce : cfg.Force = false) (hrep : cfg.Replace = false)
    (hdry : cfg.DryRun = false) (hlist : ∀ n, o.listErr n = false)
    (hcreate : ∀ n, o.createErr n = false) (e : String) (he : e ≠ "") :
    countExt (ImportYouTube o cfg s items).docs e =
      max (countExt s.docs e) (ytIndList items e) := by
  induction items generalizing s with
  | nil =>
    have hz : ytIndList [] e = 0 := by simp [ytIndList]
    simp [ImportYouTube, hz]
  | cons it rest ih =>
    have key : ImportYouTube o cfg s (it :: rest) =
        ImportYouTube o cfg (processYTItem o cfg s it) rest := rfl
    rw [key, ih (processYTItem o cfg s it),
      processYTItem_count o cfg s it hforce hrep hdry hlist hcreate e he,
      ytIndList_cons, Nat.max_assoc]

lemma processYTItem_stable (o : Oracle) (cfg : ImportConfig) (s : St) (item : YTItem)
    (hforce : cfg.Force = false) (hrep : cfg.Replace = false) (hdry : cfg.DryRun = false)
    (hlist : ∀ n, o.listErr n = false)
    (hpres : ∀ e, e ≠ "" → ytInd item e ≤ countExt s.docs e) :
    (processYTItem o cfg s item).docs = s.docs ∧
    (processYTItem o cfg s item).createCnt = s.createCnt ∧
    (processYTItem o cfg s item).trace = s.trace ++
      (if item.videoId.getD "" = "" then []
       else [.list (item.videoId.getD "") 1 cfg.Partition]) ∧
    ∃ Λ, (processYTItem o cfg s item).log = s.log ++ Λ ∧
      (item.videoId.getD "" ≠ "" → ytContent item ≠ "" →
        ("warning: skipping video with existing document: " ++ item.videoId.getD "") ∈
          Λ) := by
  by_cases hvid : item.videoId.getD "" = ""
  · rw [processYTItem_emptyId o cfg s item hvid]
    exact ⟨rfl, rfl, by simp [hvid],
      ["warning: skipping item with no videoId"], rfl, fun h _ => absurd hvid h⟩
  · have hiff := documentExists_fst_iff o s cfg (item.videoId.getD "") (hlist _)
    have hs2 := documentExists_snd o s cfg (item.videoId.getD "")
    by_cases hcontent : ytContent item = ""
    · by_cases hpos : 0 < countExt s.docs (item.videoId.getD "")
      · rw [processYTItem_skipExisting o cfg s item (item.videoId.getD "") rfl hvid
          (hiff.mpr hpos) hforce hrep, hs2]
        exact ⟨rfl, rfl, by simp [hvid],
          ["warning: skipping video with existing document: " ++ item.videoId.getD ""],
          rfl, fun _ h => absurd hcontent h⟩
      · have hex : (documentExists o s cfg (item.videoId.getD "")).1 = false := by
          cases h : (documentExists o s cfg (item.videoId.getD "")).1 with
          | false => rfl
          | true => exact absurd (hiff.mp h) hpos
        rw [processYTItem_noRep_emptyContent o cfg s item (item.videoId.getD "") rfl hvid
          (by simp [hex]) (by simp [hex]) hcontent, hs2]
        exact ⟨rfl, rfl, by simp [hvid],
          ["warning: refusing to upload empty content: " ++ item.videoId.getD ""],
          rfl, fun _ h => absurd hcontent h⟩
    · have hpos : 0 < countExt s.docs (item.videoId.getD "") := by
        have h1 := hpres (item.videoId.getD "") hvid
        have h2 : ytInd item (item.videoId.getD "") = 1 := by
          unfold ytInd
          rw [if_pos ⟨rfl, hcontent⟩]
        omega
      rw [processYTItem_skipExisting o cfg s item (item.videoId.getD "") rfl hvid
        (hiff.mpr hpos) hforce hrep, hs2]
      exact ⟨rfl, rfl, by simp [hvid],
        ["warning: skipping video with existing document: " ++ item.videoId.getD ""],
        rfl, fun _ _ => List.mem_singleton.mpr rfl⟩

lemma ImportYouTube_stable (o : Oracle) (cfg : ImportConfig) (items : List YTItem)
    (s : St) (hforce : cfg.Force = false) (hrep : cfg.Replace = false)
    (hdry : cfg.DryRun = false) (hlist : ∀ n, o.listErr n = false)
    (hpres : ∀ it ∈ items, ∀ e, e ≠ "" → ytInd it e ≤ countExt s.docs e) :
    (ImportYouTube o cfg s items).docs = s.docs ∧
    (ImportYouTube o cfg s items).createCnt = s.createCnt ∧
    (ImportYouTube o cfg s items).trace = s.trace ++
      items.filterMap (fun it => if it.videoId.getD "" = "" then none
        else some (.list (it.videoId.getD "") 1 cfg.Partition)) ∧
    (∃ Λ, (ImportYouTube o cfg s items).log = s.log ++ Λ) ∧
    ∀ it ∈ items, it.videoId.getD "" ≠ "" → ytContent it ≠ "" →
      ("warning: skipping video with existing document: " ++ it.videoId.getD "") ∈
        (ImportYouTube o cfg s items).log := by
  induction items generalizing s with
  | nil => exact ⟨rfl, rfl, by simp [ImportYouTube], ⟨[], by simp [ImportYouTube]⟩,
      by simp⟩
  | cons it rest ih =>
    have key : ImportYouTube o cfg s (it :: rest) =
        ImportYouTube o cfg (processYTItem o cfg s it) rest := rfl
    obtain ⟨hd1, hc1, ht1, Λ1, hl1, hw1⟩ := processYTItem_stable o cfg s it hforce hrep
      hdry hlist (hpres it (List.mem_cons_self it rest))
    obtain ⟨hd2, hc2, ht2, ⟨Λ2, hl2⟩, hw2⟩ := ih (processYTItem o cfg s it)
      (by
        intro x hx e he
        rw [hd1]
        exact hpres x (List.mem_cons_of_mem it hx) e he)
    refine ⟨by rw [key, hd2, hd1], by rw [key, hc2, hc1],
      by rw [key, ht2, ht1]; by_cases hvid : it.videoId.getD "" = "" <;> simp [hvid],
      ⟨Λ1 ++ Λ2, by rw [key, hl2, hl1]; simp⟩, ?_⟩
    intro x hx hid hcont
    rcases List.mem_cons.mp hx with h | h
    · rw [key, hl2]
      refine List.mem_append_left _ ?_
      rw [hl1]
      exact List.mem_append_right _ (h ▸ hw1 (h ▸ hid) (h ▸ hcont))
    · rw [key]
      exact hw2 x h hid hcont

/-- C7 (amended): running the same YouTube import twice with force=false
and replace=false against a failure-free retaining service, starting from
an empty document set, leaves exactly one remote document per distinct
non-empty externalID that some item with non-empty assembled content
derives — and zero documents for ids all of whose items are empty-bodied.
The second run changes nothing (same documents, zero additional creates),
performs exactly one existence check per well-formed item, and logs the
existing-document skip warning for every item with non-empty content. -/
theorem claim_C7 (cfg : ImportConfig) (o : Oracle) (items : List YTItem) (s : St)
    (hforce : cfg.Force = false) (hrep : cfg.Replace = false) (hdry : cfg.DryRun = false)
    (hlist : ∀ n, o.listErr n = false) (hcreate : ∀ n, o.createErr n = false)
    (hempty : s.docs = []) :
    (ImportYouTube o cfg (ImportYouTube o cfg s items) items).docs =
      (ImportYouTube o cfg s items).docs ∧
    (ImportYouTube o cfg (ImportYouTube o cfg s items) items).createCnt =
      (ImportYouTube o cfg s items).createCnt ∧
    (∀ e, e ≠ "" →
      countExt (ImportYouTube o cfg s items).docs e = ytIndList items e) ∧
    (∀ e, e ≠ "" →
      countExt (ImportYouTube o cfg (ImportYouTube o cfg s items) items).docs e =
        ytIndList items e) ∧
    (ImportYouTube o cfg (ImportYouTube o cfg s items) items).trace =
      (ImportYouTube o cfg s items).trace ++
        items.filterMap (fun it => if it.videoId.getD "" = "" then none
          else some (.list (it.videoId.getD "") 1 cfg.Partition)) ∧
    ∀ it ∈ items, it.videoId.getD "" ≠ "" → ytContent it ≠ "" →
      ("warning: skipping video with existing document: " ++ it.videoId.getD "") ∈
        (ImportYouTube o cfg (ImportYouTube o cfg s items) items).log := by
  have hcount1 : ∀ e, e ≠ "" →
      countExt (ImportYouTube o cfg s items).docs e = ytIndList items e := by
    intro e he
    rw [ImportYouTube_count o cfg items s hforce hrep hdry hlist hcreate e he, hempty,
      countExt_nil]
    simp
  have hpres2 : ∀ it ∈ items, ∀ e, e ≠ "" →
      ytInd it e ≤ countExt (ImportYouTube o cfg s items).docs e := by
    intro it hit e he
    rw [hcount1 e he]
    exact ytInd_le_ytIndList it items e hit
  obtain ⟨hd2, hc2, ht2, _, hw2⟩ := ImportYouTube_stable o cfg items
    (ImportYouTube o cfg s items) hforce hrep hdry hlist hpres2
  refine ⟨hd2, hc2, hcount1, ?_, ht2, hw2⟩
  intro e he
  rw [hd2]
  exact hcount1 e he

/-- Witness for the amended C7: the same two-element list (a duplicated
well-formed item) imported twice from an empty server. -/
theorem claim_C7_witness :
    (ImportYouTube okOracle {} (ImportYouTube okOracle {} (St.init [])
        [{ videoId := some "a", title := some "T", captions := [some "c"] },
         { videoId := some "a", title := some "T", captions := [some "c"] }])
        [{ videoId := some "a", title := some "T", captions := [some "c"] },
         { videoId := some "a", title := some "T", captions := [some "c"] }]).docs =
      (ImportYouTube okOracle {} (St.init [])
        [{ videoId := some "a", title := some "T", captions := [some "c"] },
         { videoId := some "a", title := some "T", captions := [some "c"] }]).docs ∧
    (ImportYouTube okOracle {} (ImportYouTube okOracle {} (St.init [])
        [{ videoId := some "a", title := some "T", captions := [some "c"] },
         { videoId := some "a", title := some "T", captions := [some "c"] }])
        [{ videoId := some "a", title := some "T", captions := [some "c"] },
         { videoId := some "a", title := some "T", captions := [some "c"] }]).createCnt =
      (ImportYouTube okOracle {} (St.init [])
        [{ videoId := some "a", title := some "T", captions := [some "c"] },
         { videoId := some "a", title := some "T", captions := [some "c"] }]).createCnt ∧
    (∀ e, e ≠ "" →
      countExt (ImportYouTube okOracle {} (St.init [])
        [{ videoId := some "a", title := some "T", captions := [some "c"] },
         { videoId := some "a", title := some "T", captions := [some "c"] }]).docs e =
      ytIndList
        [{ videoId := some "a", title := some "T", captions := [some "c"] },
         { videoId := some "a", title := some "T", captions := [some "c"] }] e) ∧
    (∀ e, e ≠ "" →
      countExt (ImportYouTube okOracle {} (ImportYouTube okOracle {} (St.init [])
        [{ videoId := some "a", title := some "T", captions := [some "c"] },
         { videoId := some "a", title := some "T", captions := [some "c"] }])
        [{ videoId := some "a", title := some "T", captions := [some "c"] },
         { videoId := some "a", title := some "T", captions := [some "c"] }]).docs e =
      ytIndList
        [{ videoId := some "a", title := some "T", captions := [some "c"] },
         { videoId := some "a", title := some "T", captions := [some "c"] }] e) ∧
    (ImportYouTube okOracle {} (ImportYouTube okOracle {} (St.init [])
        [{ videoId := some "a", title := some "T", captions := [some "c"] },
         { videoId := some "a", title := some "T", captions := [some "c"] }])
        [{ videoId := some "a", title := some "T", captions := [some "c"] },
         { videoId := some "a", title := some "T", captions := [some "c"] }]).trace =
      (ImportYouTube okOracle {} (St.init [])
        [{ videoId := some "a", title := some "T", captions := [some "c"] },
         { videoId := some "a", title := some "T", captions := [some "c"] }]).trace ++
        ([{ videoId := some "a", title := some "T", captions := [some "c"] },
          { videoId := some "a", title := some "T", captions := [some "c"] }] :
            List YTItem).filterMap
          (fun it => if it.videoId.getD "" = "" then none
            else some (.list (it.videoId.getD "") 1 ({} : ImportConfig).Partition)) ∧
    ∀ it ∈ ([{ videoId := some "a", title := some "T", captions := [some "c"] },
         { videoId := some "a", title := some "T", captions := [some "c"] }] :
           List YTItem),
      it.videoId.getD "" ≠ "" → ytContent it ≠ "" →
      ("warning: skipping video with existing document: " ++ it.videoId.getD "") ∈
        (ImportYouTube okOracle {} (ImportYouTube okOracle {} (St.init [])
          [{ videoId := some "a", title := some "T", captions := [some "c"] },
           { videoId := some "a", title := some "T", captions := [some "c"] }])
          [{ videoId := some "a", title := some "T", captions := [some "c"] },
           { videoId := some "a", title := some "T", captions := [some "c"] }]).log :=
  claim_C7 {} okOracle
    [{ videoId := some "a", title := some "T", captions := [some "c"] },
     { videoId := some "a", title := some "T", captions := [some "c"] }]
    (St.init []) (by decide) (by decide) (by decide)
    (fun _ => rfl) (fun _ => rfl) rfl

/-- C7 counterexample: importing the single item with id "a" and no
captions twice from an empty server leaves zero documents with external id
"a" (the claim demands exactly one per distinct non-empty externalID), and
on the second run the item does not find an existing document. -/
theorem claim_C7_cex :
    countExt (ImportYouTube okOracle {} (ImportYouTube okOracle {} (St.init [])
      [{ videoId := some "a" }]) [{ videoId := some "a" }]).docs "a" = 0 ∧
    (documentExists okOracle
      (ImportYouTube okOracle {} (St.init []) [{ videoId := some "a" }]) {} "a").1 =
      false := by
  exact ⟨by decide, by decide⟩

/-- C8 counterexample: with force=true and an existing document for id "a",
the item with no captions assembles empty content and is skipped — zero
create calls occur, where the claim demands exactly one for every such
item. -/
theorem claim_C8_cex :
    (documentExists okOracle (St.init [⟨"x1", "n", [("external_id", .s "a")]⟩])
      { Force := true } "a").1 = true ∧
    (processYTItem okOracle { Force := true }
      (St.init [⟨"x1", "n", [("external_id", .s "a")]⟩])
      { videoId := some "a" }).createCnt = 0 ∧
    (processYTItem okOracle { Force := true }
      (St.init [⟨"x1", "n", [("external_id", .s "a")]⟩])
      { videoId := some "a" }).trace = [.list "a" 1 ""] := by
  exact ⟨by decide, by decide, by decide⟩

/-- C8 (amended): for an item processed with force=true whose id already
has a matching document and which passes the empty-content guard, exactly
one create call and no delete call occur (the item trace is the existence
check followed by the create), and afterwards the number of documents
with that external id has grown by one — two documents share it when
exactly one existed before. -/
theorem claim_C8 (cfg : ImportConfig) (o : Oracle) (s : St) (item : YTItem) (v : String)
    (hv : item.videoId.getD "" = v) (hvne : v ≠ "")
    (hforce : cfg.Force = true) (hrep : cfg.Replace = false) (hdry : cfg.DryRun = false)
    (hlist : ∀ n, o.listErr n = false) (hcreate : ∀ n, o.createErr n = false)
    (hcontent : ytContent item ≠ "") (hex : 0 < countExt s.docs v) :
    (processYTItem o cfg s item).createCnt = s.createCnt + 1 ∧
    (processYTItem o cfg s item).trace =
      s.trace ++ [.list v 1 cfg.Partition,
        .createRaw cfg.Partition (item.title.getD "") (ytContent item)
          (metaSet [("title", .s (item.title.getD ""))] "external_id" (.s v))] ∧
    countExt (processYTItem o cfg s item).docs v = countExt s.docs v + 1 ∧
    (countExt s.docs v = 1 → countExt (processYTItem o cfg s item).docs v = 2) := by
  have hexb : (documentExists o s cfg v).1 = true :=
    (documentExists_fst_iff o s cfg v (hlist _)).mpr hex
  obtain ⟨hdocs, htr, hcc, _, _⟩ := processYTItem_noRep_upload o cfg s item v hv hvne
    (by simp [hexb, hforce]) (by simp [hexb, hrep]) hcontent
  have hok := createDocumentRaw_ok o (documentExists o s cfg v).2 v (item.title.getD "")
    (ytContent item) [("title", .s (item.title.getD ""))] cfg hdry (hcreate _)
  have hcount : countExt (processYTItem o cfg s item).docs v = countExt s.docs v + 1 := by
    rw [hdocs, hok]
    simp [documentExists_snd o s cfg v, countExt_append, countExt_singleton,
      metaGet_metaSet]
  refine ⟨?_, ?_, hcount, fun h1 => by rw [hcount, h1]⟩
  · rw [hcc, hok]
    simp [documentExists_snd o s cfg v]
  · rw [htr, hok]
    simp [documentExists_snd o s cfg v]

/-- Witness for the amended C8 at a concrete force scenario with one
pre-existing document: one create, no delete, and two documents sharing
external id "a" afterwards. -/
theorem claim_C8_witness :
    (processYTItem okOracle { Force := true }
      (St.init [⟨"x1", "n", [("external_id", .s "a")]⟩])
      { videoId := some "a", title := some "T", captions := [some "c"] }).createCnt =
      0 + 1 ∧
    (processYTItem okOracle { Force := true }
      (St.init [⟨"x1", "n", [("external_id", .s "a")]⟩])
      { videoId := some "a", title := some "T", captions := [some "c"] }).trace =
      [] ++ [.list "a" 1 "",
        .createRaw "" "T" "T\n\nc\n" [("title", .s "T"), ("external_id", .s "a")]] ∧
    countExt (processYTItem okOracle { Force := true }
      (St.init [⟨"x1", "n", [("external_id", .s "a")]⟩])
      { videoId := some "a", title := some "T", captions := [some "c"] }).docs "a" =
      1 + 1 ∧
    (1 = 1 →
      countExt (processYTItem okOracle { Force := true }
        (St.init [⟨"x1", "n", [("external_id", .s "a")]⟩])
        { videoId := some "a", title := some "T", captions := [some "c"] }).docs "a" =
        2) := by
  exact claim_C8 { Force := true } okOracle
    (St.init [⟨"x1", "n", [("external_id", .s "a")]⟩])
    { videoId := some "a", title := some "T", captions := [some "c"] } "a"
    (by decide) (by decide) (by decide) (by decide) (by decide)
    (fun _ => rfl) (fun _ => rfl) (by decide) (by decide)

/-- C9 counterexample: with a positive delay, an item skipped because its
document already exists performs no pacing sleep at all — the `continue`
statements jump past the sleep at the end of the loop body, contradicting
the claimed sleep after every processed item. -/
theorem claim_C9_cex :
    (0 : ℚ) < ({ Delay := 1 } : ImportConfig).Delay ∧
    (processYTItem okOracle { Delay := 1 }
      (St.init [⟨"x1", "n", [("external_id", .s "a")]⟩])
      { videoId := some "a", title := some "T", captions := [some "c"] }).sleeps = 0 ∧
    ("warning: skipping video with existing document: a") ∈
      (processYTItem okOracle { Delay := 1 }
        (St.init [⟨"x1", "n", [("external_id", .s "a")]⟩])
        { videoId := some "a", title := some "T", captions := [some "c"] }).log := by
  exact ⟨by decide, by decide, by decide⟩

/-- C9 (amended): with delaySeconds > 0 the pacing sleep runs only after
items that reach the upload step (whether the create succeeds, fails, or
is a dry-run announcement); every skip path — empty externalID, existing
document, failed replace, empty content — continues to the next item
without sleeping. -/
theorem claim_C9 (cfg : ImportConfig) (hdelay : 0 < cfg.Delay) :
    (∀ (o : Oracle) (s : St) (item : YTItem), item.videoId.getD "" = "" →
      (processYTItem o cfg s item).sleeps = s.sleeps) ∧
    (∀ (o : Oracle) (s : St) (item : YTItem) (v : String),
      item.videoId.getD "" = v → v ≠ "" →
      (documentExists o s cfg v).1 = true → cfg.Force = false → cfg.Replace = false →
      (processYTItem o cfg s item).sleeps = s.sleeps) ∧
    (∀ (o : Oracle) (s : St) (item : YTItem) (v msg : String),
      item.videoId.getD "" = v → v ≠ "" → cfg.Replace = true →
      (documentExists o s cfg v).1 = true →
      (replaceExistingDocuments o (documentExists o s cfg v).2 cfg v).1 = some msg →
      (processYTItem o cfg s item).sleeps = s.sleeps) ∧
    (∀ (o : Oracle) (s : St) (item : YTItem) (v : String),
      item.videoId.getD "" = v → v ≠ "" →
      ((documentExists o s cfg v).1 && !cfg.Force && !cfg.Replace) = false →
      (cfg.Replace && (documentExists o s cfg v).1) = false →
      ytContent item = "" →
      (processYTItem o cfg s item).sleeps = s.sleeps) ∧
    (∀ (o : Oracle) (s : St) (item : YTItem) (v : String),
      item.videoId.getD "" = v → v ≠ "" →
      ((documentExists o s cfg v).1 && !cfg.Force && !cfg.Replace) = false →
      (cfg.Replace && (documentExists o s cfg v).1) = false →
      ytContent item ≠ "" →
      (processYTItem o cfg s item).sleeps = s.sleeps + 1) := by
  refine ⟨?_, ?_, ?_, ?_, ?_⟩
  · intro o s item h
    rw [processYTItem_emptyId o cfg s item h]
  · intro o s item v hv hvne hex hforce hrep
    rw [processYTItem_skipExisting o cfg s item v hv hvne hex hforce hrep,
      documentExists_snd o s cfg v]
  · intro o s item v msg hv hvne hrep hex hfail
    rw [processYTItem_replaceFail o cfg s item v msg hv hvne hrep hex hfail]
    obtain ⟨_, _, _, _, hsl, _, _⟩ :=
      replaceExistingDocuments_frame o (documentExists o s cfg v).2 cfg v
    show (replaceExistingDocuments o (documentExists o s cfg v).2 cfg v).2.sleeps =
      s.sleeps
    rw [hsl, documentExists_snd o s cfg v]
  · intro o s item v hv hvne hskip hnorep hcontent
    rw [processYTItem_noRep_emptyContent o cfg s item v hv hvne hskip hnorep hcontent,
      documentExists_snd o s cfg v]
  · intro o s item v hv hvne hskip hnorep hcontent
    obtain ⟨_, _, _, hsl, _, _⟩ := processYTItem_noRep_upload o cfg s item v hv hvne
      hskip hnorep hcontent
    rw [hsl, if_pos hdelay]
    obtain ⟨_, _, _, hcs, _, _⟩ := createDocumentRaw_frame o (documentExists o s cfg v).2
      v (item.title.getD "") (ytContent item) [("title", .s (item.title.getD ""))] cfg
    rw [hcs, documentExists_snd o s cfg v]

/-- Witness for the amended C9: the skip paths leave the sleep counter at
zero while an upload-reaching item sleeps once. -/
theorem claim_C9_witness :
    ((processYTItem okOracle { Delay := 1 } (St.init []) { videoId := some "" }).sleeps =
      (St.init []).sleeps) ∧
    ((processYTItem okOracle { Delay := 1 }
      (St.init [⟨"x1", "n", [("external_id", .s "a")]⟩])
      { videoId := some "a", title := some "T", captions := [some "c"] }).sleeps =
      (St.init [⟨"x1", "n", [("external_id", .s "a")]⟩]).sleeps) ∧
    ((processYTItem okOracle { Delay := 1 } (St.init []) { videoId := some "a" }).sleeps =
      (St.init []).sleeps) ∧
    ((processYTItem okOracle { Delay := 1 } (St.init [])
      { videoId := some "a", title := some "T", captions := [some "c"] }).sleeps =
      (St.init []).sleeps + 1) :=
  ⟨(claim_C9 { Delay := 1 } (by decide)).1 okOracle (St.init []) { videoId := some "" }
     (by decide),
   (claim_C9 { Delay := 1 } (by decide)).2.1 okOracle
     (St.init [⟨"x1", "n", [("external_id", .s "a")]⟩])
     { videoId := some "a", title := some "T", captions := [some "c"] } "a"
     (by decide) (by decide) (by decide) (by decide) (by decide),
   (claim_C9 { Delay := 1 } (by decide)).2.2.2.1 okOracle (St.init [])
     { videoId := some "a" } "a" (by decide) (by decide) (by decide) (by decide)
     (by decide),
   (claim_C9 { Delay := 1 } (by decide)).2.2.2.2 okOracle (St.init [])
     { videoId := some "a", title := some "T", captions := [some "c"] } "a"
     (by decide) (by decide) (by decide) (by decide) (by decide)⟩

/-- C10: on the byte-bearing paths (files and zip), an entry whose content
string trims to empty is never uploaded (no create call in any branch),
and when it reaches the guard it is skipped with the empty-file warning
after the existence check (the list call precedes the warning); the closed
conjunct shows the guard also runs after replace deletions. -/
theorem claim_C10 :
    (∀ (o : Oracle) (cfg : ImportConfig) (s : St) (f : FileEntry),
      goTrimSpace f.content = "" →
      (importFile o cfg s f).createCnt = s.createCnt) ∧
    (∀ (o : Oracle) (cfg : ImportConfig) (zf : String) (s : St) (f : ZipEntry),
      goTrimSpace f.content = "" →
      (processZipEntry o cfg zf s f).createCnt = s.createCnt) ∧
    (∀ (o : Oracle) (cfg : ImportConfig) (s : St) (f : FileEntry),
      (documentExists o s cfg f.relPath).1 = false → goTrimSpace f.content = "" →
      importFile o cfg s f =
        { (documentExists o s cfg f.relPath).2 with
            log := (documentExists o s cfg f.relPath).2.log ++
              ["warning: skipping empty file: " ++ f.path] }) ∧
    (∀ (o : Oracle) (cfg : ImportConfig) (zf : String) (s : St) (f : ZipEntry),
      f.isDir = false →
      (documentExists o s cfg f.name).1 = false → goTrimSpace f.content = "" →
      processZipEntry o cfg zf s f =
        { (documentExists o s cfg f.name).2 with
            log := (documentExists o s cfg f.name).2.log ++
              ["warning: skipping empty file: " ++ f.name] }) ∧
    ((processZipEntry okOracle { Replace := true } "src.zip"
        (St.init [⟨"z1", "n", [("external_id", .s "a.txt")]⟩])
        { name := "a.txt", content := "  " }).trace =
      [.list "a.txt" 1 "", .list "a.txt" 100 "", .delete "z1"] ∧
      ("warning: skipping empty file: a.txt") ∈
        (processZipEntry okOracle { Replace := true } "src.zip"
          (St.init [⟨"z1", "n", [("external_id", .s "a.txt")]⟩])
          { name := "a.txt", content := "  " }).log ∧
      (processZipEntry okOracle { Replace := true } "src.zip"
        (St.init [⟨"z1", "n", [("external_id", .s "a.txt")]⟩])
        { name := "a.txt", content := "  " }).createCnt = 0) := by
  exact ⟨importFile_empty_createCnt, processZipEntry_empty_createCnt,
    importFile_noConflict_empty, processZipEntry_noConflict_empty,
    by decide, by decide, by decide⟩

/-- Witness for C10 at concrete empty file and zip entries. -/
theorem claim_C10_witness :
    ((importFile okOracle {} (St.init []) (⟨"p.txt", "p.txt", " ", 0, ""⟩ : FileEntry)).createCnt = (St.init []).createCnt) ∧
    ((processZipEntry okOracle {} "z.zip" (St.init []) (⟨"q.txt", false, " ", 0, 0, ""⟩ : ZipEntry)).createCnt = (St.init []).createCnt) ∧
    (importFile okOracle {} (St.init []) (⟨"p.txt", "p.txt", " ", 0, ""⟩ : FileEntry) =
      { (documentExists okOracle (St.init []) {} "p.txt").2 with
          log := (documentExists okOracle (St.init []) {} "p.txt").2.log ++
            ["warning: skipping empty file: " ++ "p.txt"] }) ∧
    (processZipEntry okOracle {} "z.zip" (St.init []) (⟨"q.txt", false, " ", 0, 0, ""⟩ : ZipEntry) =
      { (documentExists okOracle (St.init []) {} "q.txt").2 with
          log := (documentExists okOracle (St.init []) {} "q.txt").2.log ++
            ["warning: skipping empty file: " ++ "q.txt"] }) :=
  ⟨claim_C10.1 okOracle {} (St.init [])
     { path := "p.txt", relPath := "p.txt", content := " " } (by decide),
   claim_C10.2.1 okOracle {} "z.zip" (St.init []) { name := "q.txt", content := " " }
     (by decide),
   claim_C10.2.2.1 okOracle {} (St.init [])
     { path := "p.txt", relPath := "p.txt", content := " " } (by decide) (by decide),
   claim_C10.2.2.2.1 okOracle {} "z.zip" (St.init []) { name := "q.txt", content := " " }
     (by decide) (by decide) (by decide)⟩

end Ragie
